import Mathlib

/-!
Shallow embedding of the Arkanoid simulation core
(src/Arkanoid.c; src/Draft1.c is a near-duplicate with two tuned constants).

Conventions of the embedding:
* C float values are embedded as exact rationals.  All quantities the
  program manipulates (positions, velocities, sizes, timers) are `ℚ`;
  integer counters (score, lives, ballsCount) are `Int`.
* The host services the core consumes (raylib) are embedded as explicit
  inputs: key states arrive in an `Input` record, the frame time is a
  field of it, and the random generator is a per-frame list of raw draws
  consumed in call order (GetRandomValue lo hi maps a raw draw into
  lo..hi; rand()%100 reduces a raw draw mod 100).
* The fixed-size C arrays (5 balls, 5x10 bricks in row-major order,
  10 powerups) are lists indexed 0..n-1; bricks use the flat index
  i = row*10+col, so list order is exactly the source's scan order.
-/

namespace Arkanoid

/-- 2D vector of rationals (raylib Vector2, floats embedded as ℚ). -/
structure V2 where
  x : ℚ
  y : ℚ
deriving DecidableEq, Repr

/-- Axis-aligned rectangle (raylib Rectangle). -/
structure RectQ where
  x : ℚ
  y : ℚ
  w : ℚ
  h : ℚ
deriving DecidableEq, Repr

/-- t_player from Arkanoid.c. -/
structure Player where
  pos : V2
  size : V2
  life : Int
  speed : ℚ
  expanded : Bool
  expand_timer : ℚ
deriving DecidableEq, Repr

/-- t_ball from Arkanoid.c. -/
structure Ball where
  pos : V2
  spd : V2
  radius : ℚ
  active : Bool
deriving DecidableEq, Repr

/-- t_brick from Arkanoid.c. -/
structure Brick where
  rect : RectQ
  active : Bool
deriving DecidableEq, Repr

/-- t_powerup_type from Arkanoid.c. -/
inductive PType where
  | puNone
  | puExpand
  | puExtraLife
  | puMultiBall
deriving DecidableEq, Repr

/-- t_powerup from Arkanoid.c. -/
structure Powerup where
  pos : V2
  spd : V2
  ptype : PType
  active : Bool
deriving DecidableEq, Repr

/-- t_gamestate from Arkanoid.c. -/
inductive Phase where
  | title
  | playing
  | gameOver
  | win
deriving DecidableEq, Repr

/-- The whole mutable global state of Arkanoid.c's simulation core. -/
structure GState where
  player : Player
  balls : List Ball
  ballsCount : Int
  bricks : List Brick
  brickSize : V2
  gameState : Phase
  pause : Bool
  score : Int
  powerups : List Powerup
  waiting_for_launch : Bool
deriving DecidableEq, Repr

/-- One frame of host input: edge-triggered key presses, held keys,
elapsed frame time, and the raw random draws consumed this frame. -/
structure Input where
  space : Bool
  enter : Bool
  pkey : Bool
  left : Bool
  right : Bool
  ft : ℚ
  rng : List Nat
deriving DecidableEq, Repr

def screenWidth : ℚ := 960
def screenHeight : ℚ := 720

def dummyBall : Ball := ⟨⟨0, 0⟩, ⟨0, 0⟩, 0, false⟩
def dummyBrick : Brick := ⟨⟨0, 0, 0, 0⟩, false⟩
def dummyPowerup : Powerup := ⟨⟨0, 0⟩, ⟨0, 0⟩, PType.puNone, false⟩

/-- Modelled from the spec: raylib's CheckCollisionCircleRec is external
to the repository; spec section 4.1 specifies it as the standard
closest-point distance test with inclusive bounds (touching counts).
Like raylib's implementation we first reject circles whose bounding box
misses the rectangle (this cannot change the outcome: then the closest
point of the rectangle is farther than the radius on one axis already),
then run the closest-point test. -/
def checkCollisionCircleRec (c : V2) (radius : ℚ) (r : RectQ) : Bool :=
  if c.y + radius < r.y then false
  else if r.y + r.h + radius < c.y then false
  else if c.x + radius < r.x then false
  else if r.x + r.w + radius < c.x then false
  else
    let qx := min (max c.x r.x) (r.x + r.w)
    let qy := min (max c.y r.y) (r.y + r.h)
    decide ((c.x - qx) * (c.x - qx) + (c.y - qy) * (c.y - qy) ≤ radius * radius)

/-- Modelled from the spec: raylib's CheckCollisionRecs is external to the
repository; it is the standard AABB overlap test (raylib's actual test is
strict at touching edges, which is what we embed; no claim depends on the
touching case). -/
def checkCollisionRecs (a b : RectQ) : Bool :=
  decide (a.x < b.x + b.w) && decide (a.x + a.w > b.x) &&
  decide (a.y < b.y + b.h) && decide (a.y + a.h > b.y)

/-- Modelled from the spec: raylib's GetRandomValue(lo,hi) returns a
uniform integer in lo..hi; we consume one raw draw from the stream and
reduce it into the range. -/
def getRandomValue (lo hi : Int) (rng : List Nat) : Int × List Nat :=
  (lo + ((rng.headD 0 : Nat) : Int) % (hi - lo + 1), rng.tail)

/-- Modelled from the spec: C's rand()%100, one raw draw reduced mod 100. -/
def randMod100 (rng : List Nat) : Int × List Nat :=
  (((rng.headD 0 : Nat) : Int) % 100, rng.tail)

def paddleRect (p : Player) : RectQ := ⟨p.pos.x, p.pos.y, p.size.x, p.size.y⟩

/-- init_game from Arkanoid.c: resets brick grid, player, balls, powerups,
score, pause and the launch-wait flag.  (It does not touch gameState.) -/
def init_game (s : GState) : GState :=
  let brickSize : V2 := ⟨screenWidth / 10, 38⟩
  let psize : V2 := ⟨140, 22⟩
  let ppos : V2 := ⟨screenWidth / 2 - psize.x / 2, screenHeight - 50⟩
  let player : Player := ⟨ppos, psize, 3, 8, false, 0⟩
  let balls0 := s.balls.map (fun b => { b with active := false })
  let ball0 : Ball :=
    ⟨⟨ppos.x + psize.x / 2, ppos.y - 12 - 2⟩, ⟨0, 0⟩, 12, false⟩
  let bricks := (List.range 50).map (fun i =>
    let row : ℚ := ((i / 10 : Nat) : ℚ)
    let col : ℚ := ((i % 10 : Nat) : ℚ)
    ({ rect := ⟨col * brickSize.x + 7, row * brickSize.y + 70,
                brickSize.x - 12, brickSize.y - 10⟩,
       active := true } : Brick))
  let powerups := s.powerups.map (fun p => { p with active := false })
  { s with
    player := player,
    balls := balls0.set 0 ball0,
    ballsCount := 1,
    bricks := bricks,
    brickSize := brickSize,
    score := 0,
    pause := false,
    powerups := powerups,
    waiting_for_launch := true }

/-- The process state right after main's startup call to init_game:
zero-initialized globals, then init_game, phase = GAME_TITLE. -/
def initialState : GState :=
  init_game
    { player := ⟨⟨0, 0⟩, ⟨0, 0⟩, 0, 0, false, 0⟩,
      balls := List.replicate 5 dummyBall,
      ballsCount := 1,
      bricks := List.replicate 50 dummyBrick,
      brickSize := ⟨0, 0⟩,
      gameState := Phase.title,
      pause := false,
      score := 0,
      powerups := List.replicate 10 dummyPowerup,
      waiting_for_launch := true }

/-- Helper for spawn_powerup: write the new powerup into the first
inactive slot (the C for-loop with break); no slot, no change. -/
def allocPowerup : List Powerup → Powerup → List Powerup
  | [], _ => []
  | p :: rest, np => if p.active then p :: allocPowerup rest np else np :: rest

/-- spawn_powerup from Arkanoid.c: pick the variant from rand()%100
(under 40 Expand, under 70 ExtraLife, else MultiBall), then allocate into
the first inactive slot with fall velocity (0,2); silently dropped when
the pool is full. -/
def spawnChoice (r : Int) : PType :=
  if r < 40 then PType.puExpand
  else if r < 70 then PType.puExtraLife
  else PType.puMultiBall

def spawn_powerup (s : GState) (pos : V2) (rng : List Nat) :
    GState × List Nat :=
  let rr := randMod100 rng
  ({ s with powerups :=
      allocPowerup s.powerups ⟨pos, ⟨0, 2⟩, spawnChoice rr.1, true⟩ },
   rr.2)

/-- One iteration of apply_powerup's MULTI_BALL outer loop at ball index
i: if fewer than 3 balls are counted and ball i is active, clone it into
the first inactive slot with negated x velocity and a coin flip on the y
velocity sign. -/
def cloneOne (s : GState) (rng : List Nat) (i : Nat) : GState × List Nat :=
  if s.ballsCount < 3 then
    let bi := s.balls.getD i dummyBall
    if bi.active then
      match s.balls.findIdx? (fun b => !b.active) with
      | some j =>
        let d := getRandomValue 0 1 rng
        let nb : Ball :=
          { bi with
            spd := ⟨-bi.spd.x, bi.spd.y * (if d.1 == 0 then 1 else -1)⟩,
            active := true }
        ({ s with balls := s.balls.set j nb, ballsCount := s.ballsCount + 1 },
         d.2)
      | none => (s, rng)
    else (s, rng)
  else (s, rng)

/-- apply_powerup from Arkanoid.c. -/
def apply_powerup (s : GState) (t : PType) (rng : List Nat) :
    GState × List Nat :=
  match t with
  | PType.puExpand =>
      ({ s with player :=
          { s.player with
            expanded := true, expand_timer := 10,
            size := ⟨210, s.player.size.y⟩ } }, rng)
  | PType.puExtraLife =>
      ({ s with player := { s.player with life := s.player.life + 1 } }, rng)
  | PType.puMultiBall =>
      [0, 1, 2, 3, 4].foldl (fun st i => cloneOne st.1 st.2 i) (s, rng)
  | PType.puNone => (s, rng)

/-- reset_balls from Arkanoid.c: deactivate all balls, leave a single
resting ball 0 at the given position with radius 12. -/
def reset_balls (s : GState) (pos : V2) : GState :=
  let balls0 := s.balls.map (fun b => { b with active := false })
  { s with
    balls := balls0.set 0 (⟨pos, ⟨0, 0⟩, 12, false⟩ : Ball),
    ballsCount := 1 }

/-- Paddle input movement and the two-sided clamp (update_game,
player-movement block). -/
def movePaddle (p : Player) (i : Input) : Player :=
  let x1 := if i.left then p.pos.x - p.speed else p.pos.x
  let x2 := if i.right then x1 + p.speed else x1
  let x3 := if x2 < 0 then 0 else x2
  let x4 := if x3 + p.size.x > screenWidth then screenWidth - p.size.x else x3
  { p with pos := ⟨x4, p.pos.y⟩ }

/-- Expansion timer decay (update_game, shrink-paddle block). -/
def expandDecay (p : Player) (ft : ℚ) : Player :=
  if p.expanded then
    let t := p.expand_timer - ft
    if t ≤ 0 then
      { p with expanded := false, expand_timer := t, size := ⟨140, p.size.y⟩ }
    else { p with expand_timer := t }
  else p

/-- Pre-launch stickiness and launch (update_game, launch-ball block):
while ball 0 rests it is pinned above the paddle center; SPACE launches
it with x speed 7 of random sign and y speed -7. -/
def stickyLaunch (s : GState) (i : Input) (rng : List Nat) :
    GState × List Nat :=
  let b0 := s.balls.getD 0 dummyBall
  if b0.active then (s, rng)
  else
    let b1 := { b0 with pos :=
      ⟨s.player.pos.x + s.player.size.x / 2,
       s.player.pos.y - b0.radius - 2⟩ }
    if i.space then
      let d := getRandomValue 0 1 rng
      let b2 := { b1 with
        active := true,
        spd := ⟨7 * (if d.1 == 0 then -1 else 1), -7⟩ }
      ({ s with balls := s.balls.set 0 b2, waiting_for_launch := false }, d.2)
    else ({ s with balls := s.balls.set 0 b1 }, rng)

/-- Euler position integration of one ball (update_game, ball loop). -/
def moveBall (b : Ball) : Ball :=
  { b with pos := ⟨b.pos.x + b.spd.x, b.pos.y + b.spd.y⟩ }

/-- Side/top wall reflection of one ball (update_game, ball loop): the x
speed sign is flipped when the ball touches or crosses a side wall, the y
speed sign when it touches or crosses the top. -/
def wallReflect (b : Ball) : Ball :=
  let b1 :=
    if b.pos.x - b.radius ≤ 0 ∨ screenWidth ≤ b.pos.x + b.radius then
      { b with spd := ⟨-b.spd.x, b.spd.y⟩ }
    else b
  if b1.pos.y - b1.radius ≤ 0 then
    { b1 with spd := ⟨b1.spd.x, -b1.spd.y⟩ }
  else b1

/-- Paddle bounce of one ball (update_game, ball loop): on circle/paddle
overlap the y speed sign is flipped and the x speed is overwritten with 6
times the hit offset from the paddle center normalized by the half
width. -/
def paddleBounce (p : Player) (b : Ball) : Ball :=
  if checkCollisionCircleRec b.pos b.radius (paddleRect p) then
    let hitPos := (b.pos.x - (p.pos.x + p.size.x / 2)) / (p.size.x / 2)
    { b with spd := ⟨6 * hitPos, -b.spd.y⟩ }
  else b

/-- The state effect of one brick hit (update_game, ball loop, brick
collision body minus the brick/ball flags): add 100 to the score, roll
GetRandomValue(1,100), and on a roll of at most 22 spawn a powerup at the
brick center. -/
def brickHitEffect (s : GState) (br : Brick) (rng : List Nat) :
    GState × List Nat :=
  let s1 := { s with score := s.score + 100 }
  let roll := getRandomValue 1 100 rng
  if roll.1 ≤ 22 then
    spawn_powerup s1
      ⟨br.rect.x + s1.brickSize.x / 2, br.rect.y + s1.brickSize.y / 2⟩
      roll.2
  else (s1, roll.2)

/-- The brick scan of one ball (update_game, ball loop, brick collision):
every brick is visited in row-major order; each still-active brick the
ball overlaps is deactivated, flips the ball's y speed, adds 100 to the
score and rolls a 22% chance to spawn a powerup at the brick center.
There is no early exit.  The state's own brick list is rebuilt from the
traversed list by the caller. -/
def brickPassList : List Brick → Ball → GState → List Nat →
    List Brick × Ball × GState × List Nat
  | [], b, s, rng => ([], b, s, rng)
  | br :: rest, b, s, rng =>
    if br.active && checkCollisionCircleRec b.pos b.radius br.rect then
      let b1 := { b with spd := ⟨b.spd.x, -b.spd.y⟩ }
      let sr := brickHitEffect s br rng
      let rec2 := brickPassList rest b1 sr.1 sr.2
      ({ br with active := false } :: rec2.1, rec2.2.1, rec2.2.2.1, rec2.2.2.2)
    else
      let rec2 := brickPassList rest b s rng
      (br :: rec2.1, rec2.2.1, rec2.2.2.1, rec2.2.2.2)

/-- The body of update_game's per-ball loop for ball index bi: skip
inactive balls; otherwise integrate, reflect at walls, bounce off the
paddle, deactivate below the bottom, then run the brick scan. -/
def processBall (st : GState × List Nat) (bi : Nat) : GState × List Nat :=
  let s := st.1
  let b := s.balls.getD bi dummyBall
  if b.active then
    let b2 := wallReflect (moveBall b)
    let b3 := paddleBounce s.player b2
    let bl :=
      if b3.pos.y - b3.radius > screenHeight then
        ({ b3 with active := false }, s.ballsCount - 1)
      else (b3, s.ballsCount)
    let pr := brickPassList s.bricks bl.1 { s with ballsCount := bl.2 } st.2
    ({ pr.2.2.1 with balls := s.balls.set bi pr.2.1, bricks := pr.1 },
     pr.2.2.2)
  else st

/-- update_game's ball loop over the 5 ball slots. -/
def ballPhase (st : GState × List Nat) : GState × List Nat :=
  [0, 1, 2, 3, 4].foldl processBall st

/-- update_game's life-loss block: when no ball is active and the game is
not waiting for a launch, decrement lives; at 0 or below the phase flips
to GAME_OVER, otherwise the balls are reset to a single resting ball
above the paddle center and the launch-wait flag is set. -/
def lifeLossPhase (s : GState) : GState :=
  let anyB := s.balls.any (fun b => b.active)
  if !anyB && !s.waiting_for_launch then
    let life1 := s.player.life - 1
    let s1 := { s with player := { s.player with life := life1 } }
    if life1 ≤ 0 then { s1 with gameState := Phase.gameOver }
    else
      let s2 := reset_balls s1
        ⟨s1.player.pos.x + s1.player.size.x / 2,
         s1.player.pos.y - (s1.balls.getD 0 dummyBall).radius - 2⟩
      { s2 with waiting_for_launch := true }
  else s

/-- The body of update_game's powerup loop for slot i: skip inactive
slots; move the powerup down, apply and consume it on paddle overlap,
deactivate it below the bottom. -/
def powerupStep (st : GState × List Nat) (i : Nat) : GState × List Nat :=
  let s := st.1
  let p := s.powerups.getD i dummyPowerup
  if p.active then
    let p1 := { p with pos := ⟨p.pos.x, p.pos.y + p.spd.y⟩ }
    let collide := checkCollisionRecs (paddleRect s.player)
      ⟨p1.pos.x - 14, p1.pos.y - 14, 28, 28⟩
    let ar := if collide then apply_powerup s p1.ptype st.2 else (s, st.2)
    let p2 := { p1 with
      active := !collide && !(decide (p1.pos.y > screenHeight)) }
    ({ ar.1 with powerups := ar.1.powerups.set i p2 }, ar.2)
  else st

/-- update_game's powerup loop over the 10 slots. -/
def powerupPhase (st : GState × List Nat) : GState × List Nat :=
  (List.range 10).foldl powerupStep st

/-- update_game's win check: no active brick left flips the phase to
GAME_WIN. -/
def winCheck (s : GState) : GState :=
  if s.bricks.any (fun br => br.active) then s
  else { s with gameState := Phase.win }

/-- The paddle-movement, expansion-decay and launch blocks of a playing
frame, i.e. everything that runs before the ball loop. -/
def prePhases (s : GState) (i : Input) : GState × List Nat :=
  let p2 := expandDecay (movePaddle s.player i) i.ft
  stickyLaunch { s with player := p2 } i i.rng

/-- One un-paused playing frame of update_game. -/
def playingStep (s : GState) (i : Input) : GState :=
  let st1 := prePhases s i
  let st2 := ballPhase st1
  let s3 := lifeLossPhase st2.1
  let st4 := powerupPhase (s3, st2.2)
  winCheck st4.1

/-- update_game from Arkanoid.c: the per-frame entry point, dispatching
on the phase (title / playing with pause toggle / game-over and win). -/
def update_game (s : GState) (i : Input) : GState :=
  match s.gameState with
  | Phase.title =>
      if i.space || i.enter then
        { init_game s with gameState := Phase.playing }
      else s
  | Phase.playing =>
      let s1 := if i.pkey then { s with pause := !s.pause } else s
      if s1.pause then s1 else playingStep s1 i
  | _ =>
      if i.enter || i.space then { s with gameState := Phase.title } else s

/-- Iterating update_game over a list of frame inputs. -/
def runFrames (s : GState) (l : List Input) : GState := l.foldl update_game s

/-- A state the program can actually be in: reached from startup by some
finite sequence of frame inputs. -/
def reachable (s : GState) : Prop :=
  ∃ l : List Input, runFrames initialState l = s

/-- Number of balls whose active flag is set. -/
def activeBalls (s : GState) : Nat := s.balls.countP (fun b => b.active)

/-- Number of bricks whose active flag is set. -/
def activeBricks (s : GState) : Nat := s.bricks.countP (fun br => br.active)

/-- The state and pending rng stream the ball loop sees just before
processing ball bi in an un-paused playing frame: the pre-phases
followed by the loop body applied to the balls before bi. -/
def stateAtBall (s : GState) (i : Input) (bi : Nat) : GState × List Nat :=
  (List.range bi).foldl processBall (prePhases s i)

/-- The sign conditions claim C4 asserts of a ball right after its wall
reflection: a touched boundary never leaves the matching velocity
component pointing further out. -/
def wallSignsOk (b : Ball) : Bool :=
  (!(decide (b.pos.x - b.radius ≤ 0)) || decide (0 ≤ b.spd.x)) &&
  (!(decide (screenWidth ≤ b.pos.x + b.radius)) || decide (b.spd.x ≤ 0)) &&
  (!(decide (b.pos.y - b.radius ≤ 0)) || decide (0 ≤ b.spd.y))

/-- Claim C4 as a check on one playing frame: every active ball satisfies
the sign conditions immediately after its wall-reflection handling. -/
def c4FrameCheck (s : GState) (i : Input) : Bool :=
  [0, 1, 2, 3, 4].all (fun bi =>
    let sb := (stateAtBall s i bi).1
    let b := sb.balls.getD bi dummyBall
    !b.active || wallSignsOk (wallReflect (moveBall b)))

/-- The ball state entering the brick scan: integrated, wall-reflected,
paddle-bounced, bottom-checked. -/
def preBrickBall (s : GState) (b : Ball) : Ball :=
  let b3 := paddleBounce s.player (wallReflect (moveBall b))
  if b3.pos.y - b3.radius > screenHeight then { b3 with active := false }
  else b3

/-- Number of still-active bricks a ball at this position overlaps. -/
def hitCount (l : List Brick) (pos : V2) (r : ℚ) : Nat :=
  l.countP (fun br => br.active && checkCollisionCircleRec pos r br.rect)

/-- Modelled from the spec: the brick list after the scan as claim C1
describes it — only the FIRST still-active overlapped brick in row-major
scan order is deactivated. -/
def specFirstHitBricks : List Brick → V2 → ℚ → List Brick
  | [], _, _ => []
  | br :: rest, pos, r =>
    if br.active && checkCollisionCircleRec pos r br.rect then
      { br with active := false } :: rest
    else br :: specFirstHitBricks rest pos r

/-- Claim C1 as a check on one playing frame: for every active ball that
overlaps at least one still-active brick during its scan, the scan
deactivates exactly the first such brick in scan order, adds exactly 100
to the score, and flips the ball's vertical speed sign exactly once. -/
def c1FrameCheck (s : GState) (i : Input) : Bool :=
  [0, 1, 2, 3, 4].all (fun bi =>
    let st := stateAtBall s i bi
    let sb := st.1
    let b := sb.balls.getD bi dummyBall
    if b.active then
      let b4 := preBrickBall sb b
      if 0 < hitCount sb.bricks b4.pos b4.radius then
        let pr := brickPassList sb.bricks b4 sb st.2
        decide (pr.1 = specFirstHitBricks sb.bricks b4.pos b4.radius) &&
        decide ((pr.2.2.1).score = sb.score + 100) &&
        decide ((pr.2.1).spd.y = -b4.spd.y)
      else true
    else true)

/-- The brick rectangle at flat index i of the freshly initialized grid
(used to write intermediate trace states compactly). -/
def brickRectI (i : Nat) : RectQ :=
  ⟨((i % 10 : Nat) : ℚ) * 96 + 7, ((i / 10 : Nat) : ℚ) * 38 + 70, 84, 28⟩

/-- The brick grid of a round in progress: the initial grid with the
bricks at the listed flat indices already destroyed. -/
def stdBricks (inact : List Nat) : List Brick :=
  (List.range 50).map (fun i => ⟨brickRectI i, !(inact.contains i)⟩)

/-- Frame-input constructor used by the concrete traces. -/
def mkI (sp lf rt : Bool) (rng : List Nat) : Input :=
  ⟨sp, false, false, lf, rt, 1 / 60, rng⟩

def neutralI : Input := mkI false false false []
def leftI : Input := mkI false true false []
def rightI : Input := mkI false false true []
def startI : Input := mkI true false false []


set_option maxRecDepth 100000
set_option maxHeartbeats 1000000

def c1Chunk0 : List Input :=
  [startI] ++ List.replicate 35 leftI

def c1S0 : GState :=
  ⟨⟨⟨(130 : ℚ), (670 : ℚ)⟩, ⟨(140 : ℚ), (22 : ℚ)⟩, 3, (8 : ℚ), false, (0 : ℚ)⟩,
   [⟨⟨(200 : ℚ), (656 : ℚ)⟩, ⟨(0 : ℚ), (0 : ℚ)⟩, (12 : ℚ), false⟩,
    ⟨⟨(0 : ℚ), (0 : ℚ)⟩, ⟨(0 : ℚ), (0 : ℚ)⟩, (0 : ℚ), false⟩,
    ⟨⟨(0 : ℚ), (0 : ℚ)⟩, ⟨(0 : ℚ), (0 : ℚ)⟩, (0 : ℚ), false⟩,
    ⟨⟨(0 : ℚ), (0 : ℚ)⟩, ⟨(0 : ℚ), (0 : ℚ)⟩, (0 : ℚ), false⟩,
    ⟨⟨(0 : ℚ), (0 : ℚ)⟩, ⟨(0 : ℚ), (0 : ℚ)⟩, (0 : ℚ), false⟩],
   1, stdBricks [], ⟨(96 : ℚ), (38 : ℚ)⟩, Phase.playing, false, 0,
   [dummyPowerup, dummyPowerup, dummyPowerup, dummyPowerup, dummyPowerup, dummyPowerup, dummyPowerup, dummyPowerup, dummyPowerup, dummyPowerup], true⟩

def c1Chunk1 : List Input :=
  List.replicate 15 leftI ++ [mkI true false false [1]] ++ List.replicate 20 neutralI

def c1S1 : GState :=
  ⟨⟨⟨(10 : ℚ), (670 : ℚ)⟩, ⟨(140 : ℚ), (22 : ℚ)⟩, 3, (8 : ℚ), false, (0 : ℚ)⟩,
   [⟨⟨(227 : ℚ), (509 : ℚ)⟩, ⟨(7 : ℚ), (-7 : ℚ)⟩, (12 : ℚ), true⟩,
    ⟨⟨(0 : ℚ), (0 : ℚ)⟩, ⟨(0 : ℚ), (0 : ℚ)⟩, (0 : ℚ), false⟩,
    ⟨⟨(0 : ℚ), (0 : ℚ)⟩, ⟨(0 : ℚ), (0 : ℚ)⟩, (0 : ℚ), false⟩,
    ⟨⟨(0 : ℚ), (0 : ℚ)⟩, ⟨(0 : ℚ), (0 : ℚ)⟩, (0 : ℚ), false⟩,
    ⟨⟨(0 : ℚ), (0 : ℚ)⟩, ⟨(0 : ℚ), (0 : ℚ)⟩, (0 : ℚ), false⟩],
   1, stdBricks [], ⟨(96 : ℚ), (38 : ℚ)⟩, Phase.playing, false, 0,
   [dummyPowerup, dummyPowerup, dummyPowerup, dummyPowerup, dummyPowerup, dummyPowerup, dummyPowerup, dummyPowerup, dummyPowerup, dummyPowerup], false⟩

def c1Chunk2 : List Input :=
  List.replicate 35 neutralI

def c1S2 : GState :=
  ⟨⟨⟨(10 : ℚ), (670 : ℚ)⟩, ⟨(140 : ℚ), (22 : ℚ)⟩, 3, (8 : ℚ), false, (0 : ℚ)⟩,
   [⟨⟨(472 : ℚ), (264 : ℚ)⟩, ⟨(7 : ℚ), (-7 : ℚ)⟩, (12 : ℚ), true⟩,
    ⟨⟨(0 : ℚ), (0 : ℚ)⟩, ⟨(0 : ℚ), (0 : ℚ)⟩, (0 : ℚ), false⟩,
    ⟨⟨(0 : ℚ), (0 : ℚ)⟩, ⟨(0 : ℚ), (0 : ℚ)⟩, (0 : ℚ), false⟩,
    ⟨⟨(0 : ℚ), (0 : ℚ)⟩, ⟨(0 : ℚ), (0 : ℚ)⟩, (0 : ℚ), false⟩,
    ⟨⟨(0 : ℚ), (0 : ℚ)⟩, ⟨(0 : ℚ), (0 : ℚ)⟩, (0 : ℚ), false⟩],
   1, stdBricks [], ⟨(96 : ℚ), (38 : ℚ)⟩, Phase.playing, false, 0,
   [dummyPowerup, dummyPowerup, dummyPowerup, dummyPowerup, dummyPowerup, dummyPowerup, dummyPowerup, dummyPowerup, dummyPowerup, dummyPowerup], false⟩

def c1Trace : List Input :=
  c1Chunk0 ++ c1Chunk1 ++ c1Chunk2

def c1Post : GState :=
  ⟨⟨⟨(10 : ℚ), (670 : ℚ)⟩, ⟨(140 : ℚ), (22 : ℚ)⟩, 3, (8 : ℚ), false, (0 : ℚ)⟩,
   [⟨⟨(479 : ℚ), (257 : ℚ)⟩, ⟨(7 : ℚ), (-7 : ℚ)⟩, (12 : ℚ), true⟩,
    ⟨⟨(0 : ℚ), (0 : ℚ)⟩, ⟨(0 : ℚ), (0 : ℚ)⟩, (0 : ℚ), false⟩,
    ⟨⟨(0 : ℚ), (0 : ℚ)⟩, ⟨(0 : ℚ), (0 : ℚ)⟩, (0 : ℚ), false⟩,
    ⟨⟨(0 : ℚ), (0 : ℚ)⟩, ⟨(0 : ℚ), (0 : ℚ)⟩, (0 : ℚ), false⟩,
    ⟨⟨(0 : ℚ), (0 : ℚ)⟩, ⟨(0 : ℚ), (0 : ℚ)⟩, (0 : ℚ), false⟩],
   1, stdBricks [44, 45], ⟨(96 : ℚ), (38 : ℚ)⟩, Phase.playing, false, 200,
   [dummyPowerup, dummyPowerup, dummyPowerup, dummyPowerup, dummyPowerup, dummyPowerup, dummyPowerup, dummyPowerup, dummyPowerup, dummyPowerup], false⟩

def c2Chunk0 : List Input :=
  [startI] ++ List.replicate 7 leftI ++ [mkI true false false [1]] ++ List.replicate 25 rightI

def c2S0 : GState :=
  ⟨⟨⟨(554 : ℚ), (670 : ℚ)⟩, ⟨(140 : ℚ), (22 : ℚ)⟩, 3, (8 : ℚ), false, (0 : ℚ)⟩,
   [⟨⟨(606 : ℚ), (474 : ℚ)⟩, ⟨(7 : ℚ), (-7 : ℚ)⟩, (12 : ℚ), true⟩,
    ⟨⟨(0 : ℚ), (0 : ℚ)⟩, ⟨(0 : ℚ), (0 : ℚ)⟩, (0 : ℚ), false⟩,
    ⟨⟨(0 : ℚ), (0 : ℚ)⟩, ⟨(0 : ℚ), (0 : ℚ)⟩, (0 : ℚ), false⟩,
    ⟨⟨(0 : ℚ), (0 : ℚ)⟩, ⟨(0 : ℚ), (0 : ℚ)⟩, (0 : ℚ), false⟩,
    ⟨⟨(0 : ℚ), (0 : ℚ)⟩, ⟨(0 : ℚ), (0 : ℚ)⟩, (0 : ℚ), false⟩],
   1, stdBricks [], ⟨(96 : ℚ), (38 : ℚ)⟩, Phase.playing, false, 0,
   [dummyPowerup, dummyPowerup, dummyPowerup, dummyPowerup, dummyPowerup, dummyPowerup, dummyPowerup, dummyPowerup, dummyPowerup, dummyPowerup], false⟩

def c2Chunk1 : List Input :=
  List.replicate 30 rightI ++ [mkI false false true [0, 0]] ++ List.replicate 3 rightI

def c2S1 : GState :=
  ⟨⟨⟨(820 : ℚ), (670 : ℚ)⟩, ⟨(140 : ℚ), (22 : ℚ)⟩, 3, (8 : ℚ), false, (0 : ℚ)⟩,
   [⟨⟨(844 : ℚ), (278 : ℚ)⟩, ⟨(7 : ℚ), (7 : ℚ)⟩, (12 : ℚ), true⟩,
    ⟨⟨(0 : ℚ), (0 : ℚ)⟩, ⟨(0 : ℚ), (0 : ℚ)⟩, (0 : ℚ), false⟩,
    ⟨⟨(0 : ℚ), (0 : ℚ)⟩, ⟨(0 : ℚ), (0 : ℚ)⟩, (0 : ℚ), false⟩,
    ⟨⟨(0 : ℚ), (0 : ℚ)⟩, ⟨(0 : ℚ), (0 : ℚ)⟩, (0 : ℚ), false⟩,
    ⟨⟨(0 : ℚ), (0 : ℚ)⟩, ⟨(0 : ℚ), (0 : ℚ)⟩, (0 : ℚ), false⟩],
   1, stdBricks [48], ⟨(96 : ℚ), (38 : ℚ)⟩, Phase.playing, false, 100,
   [⟨⟨(823 : ℚ), (249 : ℚ)⟩, ⟨(0 : ℚ), (2 : ℚ)⟩, PType.puExpand, true⟩, dummyPowerup, dummyPowerup, dummyPowerup, dummyPowerup, dummyPowerup, dummyPowerup, dummyPowerup, dummyPowerup, dummyPowerup], false⟩

def c2Chunk2 : List Input :=
  List.replicate 3 rightI ++ List.replicate 31 neutralI

def c2S2 : GState :=
  ⟨⟨⟨(820 : ℚ), (670 : ℚ)⟩, ⟨(140 : ℚ), (22 : ℚ)⟩, 3, (8 : ℚ), false, (0 : ℚ)⟩,
   [⟨⟨(816 : ℚ), (516 : ℚ)⟩, ⟨(-7 : ℚ), (7 : ℚ)⟩, (12 : ℚ), true⟩,
    ⟨⟨(0 : ℚ), (0 : ℚ)⟩, ⟨(0 : ℚ), (0 : ℚ)⟩, (0 : ℚ), false⟩,
    ⟨⟨(0 : ℚ), (0 : ℚ)⟩, ⟨(0 : ℚ), (0 : ℚ)⟩, (0 : ℚ), false⟩,
    ⟨⟨(0 : ℚ), (0 : ℚ)⟩, ⟨(0 : ℚ), (0 : ℚ)⟩, (0 : ℚ), false⟩,
    ⟨⟨(0 : ℚ), (0 : ℚ)⟩, ⟨(0 : ℚ), (0 : ℚ)⟩, (0 : ℚ), false⟩],
   1, stdBricks [48], ⟨(96 : ℚ), (38 : ℚ)⟩, Phase.playing, false, 100,
   [⟨⟨(823 : ℚ), (317 : ℚ)⟩, ⟨(0 : ℚ), (2 : ℚ)⟩, PType.puExpand, true⟩, dummyPowerup, dummyPowerup, dummyPowerup, dummyPowerup, dummyPowerup, dummyPowerup, dummyPowerup, dummyPowerup, dummyPowerup], false⟩

def c2Chunk3 : List Input :=
  List.replicate 34 neutralI

def c2S3 : GState :=
  ⟨⟨⟨(820 : ℚ), (670 : ℚ)⟩, ⟨(140 : ℚ), (22 : ℚ)⟩, 2, (8 : ℚ), false, (0 : ℚ)⟩,
   [⟨⟨(890 : ℚ), (656 : ℚ)⟩, ⟨(0 : ℚ), (0 : ℚ)⟩, (12 : ℚ), false⟩,
    ⟨⟨(0 : ℚ), (0 : ℚ)⟩, ⟨(0 : ℚ), (0 : ℚ)⟩, (0 : ℚ), false⟩,
    ⟨⟨(0 : ℚ), (0 : ℚ)⟩, ⟨(0 : ℚ), (0 : ℚ)⟩, (0 : ℚ), false⟩,
    ⟨⟨(0 : ℚ), (0 : ℚ)⟩, ⟨(0 : ℚ), (0 : ℚ)⟩, (0 : ℚ), false⟩,
    ⟨⟨(0 : ℚ), (0 : ℚ)⟩, ⟨(0 : ℚ), (0 : ℚ)⟩, (0 : ℚ), false⟩],
   1, stdBricks [48], ⟨(96 : ℚ), (38 : ℚ)⟩, Phase.playing, false, 100,
   [⟨⟨(823 : ℚ), (385 : ℚ)⟩, ⟨(0 : ℚ), (2 : ℚ)⟩, PType.puExpand, true⟩, dummyPowerup, dummyPowerup, dummyPowerup, dummyPowerup, dummyPowerup, dummyPowerup, dummyPowerup, dummyPowerup, dummyPowerup], true⟩

def c2Chunk4 : List Input :=
  List.replicate 34 neutralI

def c2S4 : GState :=
  ⟨⟨⟨(820 : ℚ), (670 : ℚ)⟩, ⟨(140 : ℚ), (22 : ℚ)⟩, 2, (8 : ℚ), false, (0 : ℚ)⟩,
   [⟨⟨(890 : ℚ), (656 : ℚ)⟩, ⟨(0 : ℚ), (0 : ℚ)⟩, (12 : ℚ), false⟩,
    ⟨⟨(0 : ℚ), (0 : ℚ)⟩, ⟨(0 : ℚ), (0 : ℚ)⟩, (0 : ℚ), false⟩,
    ⟨⟨(0 : ℚ), (0 : ℚ)⟩, ⟨(0 : ℚ), (0 : ℚ)⟩, (0 : ℚ), false⟩,
    ⟨⟨(0 : ℚ), (0 : ℚ)⟩, ⟨(0 : ℚ), (0 : ℚ)⟩, (0 : ℚ), false⟩,
    ⟨⟨(0 : ℚ), (0 : ℚ)⟩, ⟨(0 : ℚ), (0 : ℚ)⟩, (0 : ℚ), false⟩],
   1, stdBricks [48], ⟨(96 : ℚ), (38 : ℚ)⟩, Phase.playing, false, 100,
   [⟨⟨(823 : ℚ), (453 : ℚ)⟩, ⟨(0 : ℚ), (2 : ℚ)⟩, PType.puExpand, true⟩, dummyPowerup, dummyPowerup, dummyPowerup, dummyPowerup, dummyPowerup, dummyPowerup, dummyPowerup, dummyPowerup, dummyPowerup], true⟩

def c2Chunk5 : List Input :=
  List.replicate 34 neutralI

def c2S5 : GState :=
  ⟨⟨⟨(820 : ℚ), (670 : ℚ)⟩, ⟨(140 : ℚ), (22 : ℚ)⟩, 2, (8 : ℚ), false, (0 : ℚ)⟩,
   [⟨⟨(890 : ℚ), (656 : ℚ)⟩, ⟨(0 : ℚ), (0 : ℚ)⟩, (12 : ℚ), false⟩,
    ⟨⟨(0 : ℚ), (0 : ℚ)⟩, ⟨(0 : ℚ), (0 : ℚ)⟩, (0 : ℚ), false⟩,
    ⟨⟨(0 : ℚ), (0 : ℚ)⟩, ⟨(0 : ℚ), (0 : ℚ)⟩, (0 : ℚ), false⟩,
    ⟨⟨(0 : ℚ), (0 : ℚ)⟩, ⟨(0 : ℚ), (0 : ℚ)⟩, (0 : ℚ), false⟩,
    ⟨⟨(0 : ℚ), (0 : ℚ)⟩, ⟨(0 : ℚ), (0 : ℚ)⟩, (0 : ℚ), false⟩],
   1, stdBricks [48], ⟨(96 : ℚ), (38 : ℚ)⟩, Phase.playing, false, 100,
   [⟨⟨(823 : ℚ), (521 : ℚ)⟩, ⟨(0 : ℚ), (2 : ℚ)⟩, PType.puExpand, true⟩, dummyPowerup, dummyPowerup, dummyPowerup, dummyPowerup, dummyPowerup, dummyPowerup, dummyPowerup, dummyPowerup, dummyPowerup], true⟩

def c2Chunk6 : List Input :=
  List.replicate 34 neutralI

def c2S6 : GState :=
  ⟨⟨⟨(820 : ℚ), (670 : ℚ)⟩, ⟨(140 : ℚ), (22 : ℚ)⟩, 2, (8 : ℚ), false, (0 : ℚ)⟩,
   [⟨⟨(890 : ℚ), (656 : ℚ)⟩, ⟨(0 : ℚ), (0 : ℚ)⟩, (12 : ℚ), false⟩,
    ⟨⟨(0 : ℚ), (0 : ℚ)⟩, ⟨(0 : ℚ), (0 : ℚ)⟩, (0 : ℚ), false⟩,
    ⟨⟨(0 : ℚ), (0 : ℚ)⟩, ⟨(0 : ℚ), (0 : ℚ)⟩, (0 : ℚ), false⟩,
    ⟨⟨(0 : ℚ), (0 : ℚ)⟩, ⟨(0 : ℚ), (0 : ℚ)⟩, (0 : ℚ), false⟩,
    ⟨⟨(0 : ℚ), (0 : ℚ)⟩, ⟨(0 : ℚ), (0 : ℚ)⟩, (0 : ℚ), false⟩],
   1, stdBricks [48], ⟨(96 : ℚ), (38 : ℚ)⟩, Phase.playing, false, 100,
   [⟨⟨(823 : ℚ), (589 : ℚ)⟩, ⟨(0 : ℚ), (2 : ℚ)⟩, PType.puExpand, true⟩, dummyPowerup, dummyPowerup, dummyPowerup, dummyPowerup, dummyPowerup, dummyPowerup, dummyPowerup, dummyPowerup, dummyPowerup], true⟩

def c2Chunk7 : List Input :=
  List.replicate 34 neutralI

def c2S7 : GState :=
  ⟨⟨⟨(820 : ℚ), (670 : ℚ)⟩, ⟨(210 : ℚ), (22 : ℚ)⟩, 2, (8 : ℚ), true, (10 : ℚ)⟩,
   [⟨⟨(890 : ℚ), (656 : ℚ)⟩, ⟨(0 : ℚ), (0 : ℚ)⟩, (12 : ℚ), false⟩,
    ⟨⟨(0 : ℚ), (0 : ℚ)⟩, ⟨(0 : ℚ), (0 : ℚ)⟩, (0 : ℚ), false⟩,
    ⟨⟨(0 : ℚ), (0 : ℚ)⟩, ⟨(0 : ℚ), (0 : ℚ)⟩, (0 : ℚ), false⟩,
    ⟨⟨(0 : ℚ), (0 : ℚ)⟩, ⟨(0 : ℚ), (0 : ℚ)⟩, (0 : ℚ), false⟩,
    ⟨⟨(0 : ℚ), (0 : ℚ)⟩, ⟨(0 : ℚ), (0 : ℚ)⟩, (0 : ℚ), false⟩],
   1, stdBricks [48], ⟨(96 : ℚ), (38 : ℚ)⟩, Phase.playing, false, 100,
   [⟨⟨(823 : ℚ), (657 : ℚ)⟩, ⟨(0 : ℚ), (2 : ℚ)⟩, PType.puExpand, false⟩, dummyPowerup, dummyPowerup, dummyPowerup, dummyPowerup, dummyPowerup, dummyPowerup, dummyPowerup, dummyPowerup, dummyPowerup], true⟩

def c2Trace : List Input :=
  c2Chunk0 ++ c2Chunk1 ++ c2Chunk2 ++ c2Chunk3 ++ c2Chunk4 ++ c2Chunk5 ++ c2Chunk6 ++ c2Chunk7

def c4Chunk0 : List Input :=
  [startI] ++ [mkI true false false [0]] ++ List.replicate 14 leftI ++ List.replicate 12 neutralI

def c4S0 : GState :=
  ⟨⟨⟨(298 : ℚ), (670 : ℚ)⟩, ⟨(140 : ℚ), (22 : ℚ)⟩, 3, (8 : ℚ), false, (0 : ℚ)⟩,
   [⟨⟨(291 : ℚ), (467 : ℚ)⟩, ⟨(-7 : ℚ), (-7 : ℚ)⟩, (12 : ℚ), true⟩,
    ⟨⟨(0 : ℚ), (0 : ℚ)⟩, ⟨(0 : ℚ), (0 : ℚ)⟩, (0 : ℚ), false⟩,
    ⟨⟨(0 : ℚ), (0 : ℚ)⟩, ⟨(0 : ℚ), (0 : ℚ)⟩, (0 : ℚ), false⟩,
    ⟨⟨(0 : ℚ), (0 : ℚ)⟩, ⟨(0 : ℚ), (0 : ℚ)⟩, (0 : ℚ), false⟩,
    ⟨⟨(0 : ℚ), (0 : ℚ)⟩, ⟨(0 : ℚ), (0 : ℚ)⟩, (0 : ℚ), false⟩],
   1, stdBricks [], ⟨(96 : ℚ), (38 : ℚ)⟩, Phase.playing, false, 0,
   [dummyPowerup, dummyPowerup, dummyPowerup, dummyPowerup, dummyPowerup, dummyPowerup, dummyPowerup, dummyPowerup, dummyPowerup, dummyPowerup], false⟩

def c4Chunk1 : List Input :=
  List.replicate 28 neutralI

def c4S1 : GState :=
  ⟨⟨⟨(298 : ℚ), (670 : ℚ)⟩, ⟨(140 : ℚ), (22 : ℚ)⟩, 3, (8 : ℚ), false, (0 : ℚ)⟩,
   [⟨⟨(95 : ℚ), (271 : ℚ)⟩, ⟨(-7 : ℚ), (-7 : ℚ)⟩, (12 : ℚ), true⟩,
    ⟨⟨(0 : ℚ), (0 : ℚ)⟩, ⟨(0 : ℚ), (0 : ℚ)⟩, (0 : ℚ), false⟩,
    ⟨⟨(0 : ℚ), (0 : ℚ)⟩, ⟨(0 : ℚ), (0 : ℚ)⟩, (0 : ℚ), false⟩,
    ⟨⟨(0 : ℚ), (0 : ℚ)⟩, ⟨(0 : ℚ), (0 : ℚ)⟩, (0 : ℚ), false⟩,
    ⟨⟨(0 : ℚ), (0 : ℚ)⟩, ⟨(0 : ℚ), (0 : ℚ)⟩, (0 : ℚ), false⟩],
   1, stdBricks [], ⟨(96 : ℚ), (38 : ℚ)⟩, Phase.playing, false, 0,
   [dummyPowerup, dummyPowerup, dummyPowerup, dummyPowerup, dummyPowerup, dummyPowerup, dummyPowerup, dummyPowerup, dummyPowerup, dummyPowerup], false⟩

def c4Chunk2 : List Input :=
  [neutralI] ++ [mkI false false false [0, 85]] ++ List.replicate 26 neutralI

def c4S2 : GState :=
  ⟨⟨⟨(298 : ℚ), (670 : ℚ)⟩, ⟨(140 : ℚ), (22 : ℚ)⟩, 3, (8 : ℚ), false, (0 : ℚ)⟩,
   [⟨⟨(123 : ℚ), (439 : ℚ)⟩, ⟨(7 : ℚ), (7 : ℚ)⟩, (12 : ℚ), true⟩,
    ⟨⟨(0 : ℚ), (0 : ℚ)⟩, ⟨(0 : ℚ), (0 : ℚ)⟩, (0 : ℚ), false⟩,
    ⟨⟨(0 : ℚ), (0 : ℚ)⟩, ⟨(0 : ℚ), (0 : ℚ)⟩, (0 : ℚ), false⟩,
    ⟨⟨(0 : ℚ), (0 : ℚ)⟩, ⟨(0 : ℚ), (0 : ℚ)⟩, (0 : ℚ), false⟩,
    ⟨⟨(0 : ℚ), (0 : ℚ)⟩, ⟨(0 : ℚ), (0 : ℚ)⟩, (0 : ℚ), false⟩],
   1, stdBricks [40], ⟨(96 : ℚ), (38 : ℚ)⟩, Phase.playing, false, 100,
   [⟨⟨(55 : ℚ), (295 : ℚ)⟩, ⟨(0 : ℚ), (2 : ℚ)⟩, PType.puMultiBall, true⟩, dummyPowerup, dummyPowerup, dummyPowerup, dummyPowerup, dummyPowerup, dummyPowerup, dummyPowerup, dummyPowerup, dummyPowerup], false⟩

def c4Chunk3 : List Input :=
  List.replicate 28 neutralI

def c4S3 : GState :=
  ⟨⟨⟨(298 : ℚ), (670 : ℚ)⟩, ⟨(140 : ℚ), (22 : ℚ)⟩, 3, (8 : ℚ), false, (0 : ℚ)⟩,
   [⟨⟨(319 : ℚ), (635 : ℚ)⟩, ⟨(7 : ℚ), (7 : ℚ)⟩, (12 : ℚ), true⟩,
    ⟨⟨(0 : ℚ), (0 : ℚ)⟩, ⟨(0 : ℚ), (0 : ℚ)⟩, (0 : ℚ), false⟩,
    ⟨⟨(0 : ℚ), (0 : ℚ)⟩, ⟨(0 : ℚ), (0 : ℚ)⟩, (0 : ℚ), false⟩,
    ⟨⟨(0 : ℚ), (0 : ℚ)⟩, ⟨(0 : ℚ), (0 : ℚ)⟩, (0 : ℚ), false⟩,
    ⟨⟨(0 : ℚ), (0 : ℚ)⟩, ⟨(0 : ℚ), (0 : ℚ)⟩, (0 : ℚ), false⟩],
   1, stdBricks [40], ⟨(96 : ℚ), (38 : ℚ)⟩, Phase.playing, false, 100,
   [⟨⟨(55 : ℚ), (351 : ℚ)⟩, ⟨(0 : ℚ), (2 : ℚ)⟩, PType.puMultiBall, true⟩, dummyPowerup, dummyPowerup, dummyPowerup, dummyPowerup, dummyPowerup, dummyPowerup, dummyPowerup, dummyPowerup, dummyPowerup], false⟩

def c4Chunk4 : List Input :=
  List.replicate 4 neutralI ++ List.replicate 23 leftI ++ [neutralI]

def c4S4 : GState :=
  ⟨⟨⟨(114 : ℚ), (670 : ℚ)⟩, ⟨(140 : ℚ), (22 : ℚ)⟩, 3, (8 : ℚ), false, (0 : ℚ)⟩,
   [⟨⟨(mkRat 1519 5), (495 : ℚ)⟩, ⟨(mkRat (-9) 5), (-7 : ℚ)⟩, (12 : ℚ), true⟩,
    ⟨⟨(0 : ℚ), (0 : ℚ)⟩, ⟨(0 : ℚ), (0 : ℚ)⟩, (0 : ℚ), false⟩,
    ⟨⟨(0 : ℚ), (0 : ℚ)⟩, ⟨(0 : ℚ), (0 : ℚ)⟩, (0 : ℚ), false⟩,
    ⟨⟨(0 : ℚ), (0 : ℚ)⟩, ⟨(0 : ℚ), (0 : ℚ)⟩, (0 : ℚ), false⟩,
    ⟨⟨(0 : ℚ), (0 : ℚ)⟩, ⟨(0 : ℚ), (0 : ℚ)⟩, (0 : ℚ), false⟩],
   1, stdBricks [40], ⟨(96 : ℚ), (38 : ℚ)⟩, Phase.playing, false, 100,
   [⟨⟨(55 : ℚ), (407 : ℚ)⟩, ⟨(0 : ℚ), (2 : ℚ)⟩, PType.puMultiBall, true⟩, dummyPowerup, dummyPowerup, dummyPowerup, dummyPowerup, dummyPowerup, dummyPowerup, dummyPowerup, dummyPowerup, dummyPowerup], false⟩

def c4Chunk5 : List Input :=
  List.replicate 28 neutralI

def c4S5 : GState :=
  ⟨⟨⟨(114 : ℚ), (670 : ℚ)⟩, ⟨(140 : ℚ), (22 : ℚ)⟩, 3, (8 : ℚ), false, (0 : ℚ)⟩,
   [⟨⟨(mkRat 1267 5), (299 : ℚ)⟩, ⟨(mkRat (-9) 5), (-7 : ℚ)⟩, (12 : ℚ), true⟩,
    ⟨⟨(0 : ℚ), (0 : ℚ)⟩, ⟨(0 : ℚ), (0 : ℚ)⟩, (0 : ℚ), false⟩,
    ⟨⟨(0 : ℚ), (0 : ℚ)⟩, ⟨(0 : ℚ), (0 : ℚ)⟩, (0 : ℚ), false⟩,
    ⟨⟨(0 : ℚ), (0 : ℚ)⟩, ⟨(0 : ℚ), (0 : ℚ)⟩, (0 : ℚ), false⟩,
    ⟨⟨(0 : ℚ), (0 : ℚ)⟩, ⟨(0 : ℚ), (0 : ℚ)⟩, (0 : ℚ), false⟩],
   1, stdBricks [40], ⟨(96 : ℚ), (38 : ℚ)⟩, Phase.playing, false, 100,
   [⟨⟨(55 : ℚ), (463 : ℚ)⟩, ⟨(0 : ℚ), (2 : ℚ)⟩, PType.puMultiBall, true⟩, dummyPowerup, dummyPowerup, dummyPowerup, dummyPowerup, dummyPowerup, dummyPowerup, dummyPowerup, dummyPowerup, dummyPowerup], false⟩

def c4Chunk6 : List Input :=
  List.replicate 5 neutralI ++ [mkI false false false [99]] ++ List.replicate 22 neutralI

def c4S6 : GState :=
  ⟨⟨⟨(114 : ℚ), (670 : ℚ)⟩, ⟨(140 : ℚ), (22 : ℚ)⟩, 3, (8 : ℚ), false, (0 : ℚ)⟩,
   [⟨⟨(203 : ℚ), (411 : ℚ)⟩, ⟨(mkRat (-9) 5), (7 : ℚ)⟩, (12 : ℚ), true⟩,
    ⟨⟨(0 : ℚ), (0 : ℚ)⟩, ⟨(0 : ℚ), (0 : ℚ)⟩, (0 : ℚ), false⟩,
    ⟨⟨(0 : ℚ), (0 : ℚ)⟩, ⟨(0 : ℚ), (0 : ℚ)⟩, (0 : ℚ), false⟩,
    ⟨⟨(0 : ℚ), (0 : ℚ)⟩, ⟨(0 : ℚ), (0 : ℚ)⟩, (0 : ℚ), false⟩,
    ⟨⟨(0 : ℚ), (0 : ℚ)⟩, ⟨(0 : ℚ), (0 : ℚ)⟩, (0 : ℚ), false⟩],
   1, stdBricks [40, 42], ⟨(96 : ℚ), (38 : ℚ)⟩, Phase.playing, false, 200,
   [⟨⟨(55 : ℚ), (519 : ℚ)⟩, ⟨(0 : ℚ), (2 : ℚ)⟩, PType.puMultiBall, true⟩, dummyPowerup, dummyPowerup, dummyPowerup, dummyPowerup, dummyPowerup, dummyPowerup, dummyPowerup, dummyPowerup, dummyPowerup], false⟩

def c4Chunk7 : List Input :=
  List.replicate 28 neutralI

def c4S7 : GState :=
  ⟨⟨⟨(114 : ℚ), (670 : ℚ)⟩, ⟨(140 : ℚ), (22 : ℚ)⟩, 3, (8 : ℚ), false, (0 : ℚ)⟩,
   [⟨⟨(mkRat 763 5), (607 : ℚ)⟩, ⟨(mkRat (-9) 5), (7 : ℚ)⟩, (12 : ℚ), true⟩,
    ⟨⟨(0 : ℚ), (0 : ℚ)⟩, ⟨(0 : ℚ), (0 : ℚ)⟩, (0 : ℚ), false⟩,
    ⟨⟨(0 : ℚ), (0 : ℚ)⟩, ⟨(0 : ℚ), (0 : ℚ)⟩, (0 : ℚ), false⟩,
    ⟨⟨(0 : ℚ), (0 : ℚ)⟩, ⟨(0 : ℚ), (0 : ℚ)⟩, (0 : ℚ), false⟩,
    ⟨⟨(0 : ℚ), (0 : ℚ)⟩, ⟨(0 : ℚ), (0 : ℚ)⟩, (0 : ℚ), false⟩],
   1, stdBricks [40, 42], ⟨(96 : ℚ), (38 : ℚ)⟩, Phase.playing, false, 200,
   [⟨⟨(55 : ℚ), (575 : ℚ)⟩, ⟨(0 : ℚ), (2 : ℚ)⟩, PType.puMultiBall, true⟩, dummyPowerup, dummyPowerup, dummyPowerup, dummyPowerup, dummyPowerup, dummyPowerup, dummyPowerup, dummyPowerup, dummyPowerup], false⟩

def c4Chunk8 : List Input :=
  List.replicate 8 neutralI ++ List.replicate 14 leftI ++ List.replicate 6 neutralI

def c4S8 : GState :=
  ⟨⟨⟨(2 : ℚ), (670 : ℚ)⟩, ⟨(140 : ℚ), (22 : ℚ)⟩, 3, (8 : ℚ), false, (0 : ℚ)⟩,
   [⟨⟨(mkRat 2089 35), (523 : ℚ)⟩, ⟨(mkRat (-687) 175), (-7 : ℚ)⟩, (12 : ℚ), true⟩,
    ⟨⟨(0 : ℚ), (0 : ℚ)⟩, ⟨(0 : ℚ), (0 : ℚ)⟩, (0 : ℚ), false⟩,
    ⟨⟨(0 : ℚ), (0 : ℚ)⟩, ⟨(0 : ℚ), (0 : ℚ)⟩, (0 : ℚ), false⟩,
    ⟨⟨(0 : ℚ), (0 : ℚ)⟩, ⟨(0 : ℚ), (0 : ℚ)⟩, (0 : ℚ), false⟩,
    ⟨⟨(0 : ℚ), (0 : ℚ)⟩, ⟨(0 : ℚ), (0 : ℚ)⟩, (0 : ℚ), false⟩],
   1, stdBricks [40, 42], ⟨(96 : ℚ), (38 : ℚ)⟩, Phase.playing, false, 200,
   [⟨⟨(55 : ℚ), (631 : ℚ)⟩, ⟨(0 : ℚ), (2 : ℚ)⟩, PType.puMultiBall, true⟩, dummyPowerup, dummyPowerup, dummyPowerup, dummyPowerup, dummyPowerup, dummyPowerup, dummyPowerup, dummyPowerup, dummyPowerup], false⟩

def c4Chunk9 : List Input :=
  List.replicate 12 neutralI ++ [mkI false false false [0, 0]] ++ [neutralI]

def c4S9 : GState :=
  ⟨⟨⟨(2 : ℚ), (670 : ℚ)⟩, ⟨(140 : ℚ), (22 : ℚ)⟩, 3, (8 : ℚ), false, (0 : ℚ)⟩,
   [⟨⟨(mkRat 2201 175), (425 : ℚ)⟩, ⟨(mkRat 687 175), (-7 : ℚ)⟩, (12 : ℚ), true⟩,
    ⟨⟨(mkRat 827 175), (425 : ℚ)⟩, ⟨(mkRat 687 175), (-7 : ℚ)⟩, (12 : ℚ), true⟩,
    ⟨⟨(mkRat 2201 175), (425 : ℚ)⟩, ⟨(mkRat 687 175), (-7 : ℚ)⟩, (12 : ℚ), true⟩,
    ⟨⟨(0 : ℚ), (0 : ℚ)⟩, ⟨(0 : ℚ), (0 : ℚ)⟩, (0 : ℚ), false⟩,
    ⟨⟨(0 : ℚ), (0 : ℚ)⟩, ⟨(0 : ℚ), (0 : ℚ)⟩, (0 : ℚ), false⟩],
   3, stdBricks [40, 42], ⟨(96 : ℚ), (38 : ℚ)⟩, Phase.playing, false, 200,
   [⟨⟨(55 : ℚ), (657 : ℚ)⟩, ⟨(0 : ℚ), (2 : ℚ)⟩, PType.puMultiBall, false⟩, dummyPowerup, dummyPowerup, dummyPowerup, dummyPowerup, dummyPowerup, dummyPowerup, dummyPowerup, dummyPowerup, dummyPowerup], false⟩

def c4Trace : List Input :=
  c4Chunk0 ++ c4Chunk1 ++ c4Chunk2 ++ c4Chunk3 ++ c4Chunk4 ++ c4Chunk5 ++ c4Chunk6 ++ c4Chunk7 ++ c4Chunk8 ++ c4Chunk9

/-- The input of the frame in which the C1 trace's ball reaches the brick
row overlapping two bricks at once (both powerup-chance rolls miss). -/
def c1HitI : Input := mkI false false false [99, 99]

/-- A playing state of the kind claim C3 singles out: a MultiBall split
earlier filled extra slots, the primary ball and one clone then fell out
(each death decrementing ballsCount to 1), and one clone is still in
flight while ball 0 rests inactive awaiting a relaunch. -/
def c3PreState : GState :=
  { initialState with
    gameState := Phase.playing,
    waiting_for_launch := false,
    balls := [⟨⟨480, 656⟩, ⟨0, 0⟩, 12, false⟩,
              ⟨⟨300, 300⟩, ⟨-7, -7⟩, 12, true⟩,
              dummyBall, dummyBall, dummyBall],
    ballsCount := 1 }

/-- The state right after the launch block relaunches ball 0 of
c3PreState (SPACE pressed, one raw draw): the launch sets ball 0 active
without touching ballsCount, so two balls fly while ballsCount = 1. -/
def c3Relaunch : GState :=
  (stickyLaunch c3PreState (mkI true false false [1]) [1]).1

/-- A game-over state used to witness the round-trip theorem. -/
def c6WitnessState : GState := { initialState with gameState := Phase.gameOver }

/-- A confirm input (ENTER pressed). -/
def enterI : Input := ⟨false, true, false, false, false, 1 / 60, []⟩

/-- A playing state with one life left, all balls lost, launch-wait
cleared: the game-over side of claim C5. -/
def c5StateA : GState :=
  { initialState with
    gameState := Phase.playing,
    player := { initialState.player with life := 1 },
    waiting_for_launch := false }

/-- A playing state with two lives left, all balls lost, launch-wait
cleared: the respawn side of claim C5. -/
def c5StateB : GState :=
  { initialState with
    gameState := Phase.playing,
    player := { initialState.player with life := 2 },
    waiting_for_launch := false }

/-- A state whose 10 powerup slots are all active: the pool-exhaustion
side of claim C9. -/
def c9FullState : GState :=
  { initialState with
    powerups := List.replicate 10 ⟨⟨5, 5⟩, ⟨0, 2⟩, PType.puExpand, true⟩ }

/-- A playing state used to witness claim C7. -/
def c7WitnessState : GState := { initialState with gameState := Phase.playing }

theorem runFrames_append (s : GState) (l1 l2 : List Input) :
    runFrames s (l1 ++ l2) = runFrames (runFrames s l1) l2 :=
  List.foldl_append update_game s l1 l2


theorem c1Seg0 : runFrames initialState c1Chunk0 = c1S0 := by decide!

theorem c1Seg1 : runFrames c1S0 c1Chunk1 = c1S1 := by decide!

theorem c1Seg2 : runFrames c1S1 c1Chunk2 = c1S2 := by decide!

theorem c1TraceEval : runFrames initialState c1Trace = c1S2 := by
  show runFrames initialState (c1Chunk0 ++ c1Chunk1 ++ c1Chunk2) = c1S2
  simp only [runFrames_append]
  rw [c1Seg0]
  rw [c1Seg1]
  rw [c1Seg2]


theorem c2Seg0 : runFrames initialState c2Chunk0 = c2S0 := by decide!

theorem c2Seg1 : runFrames c2S0 c2Chunk1 = c2S1 := by decide!

theorem c2Seg2 : runFrames c2S1 c2Chunk2 = c2S2 := by decide!

theorem c2Seg3 : runFrames c2S2 c2Chunk3 = c2S3 := by decide!

theorem c2Seg4 : runFrames c2S3 c2Chunk4 = c2S4 := by decide!

theorem c2Seg5 : runFrames c2S4 c2Chunk5 = c2S5 := by decide!

theorem c2Seg6 : runFrames c2S5 c2Chunk6 = c2S6 := by decide!

theorem c2Seg7 : runFrames c2S6 c2Chunk7 = c2S7 := by decide!

theorem c2TraceEval : runFrames initialState c2Trace = c2S7 := by
  show runFrames initialState (c2Chunk0 ++ c2Chunk1 ++ c2Chunk2 ++ c2Chunk3 ++ c2Chunk4 ++ c2Chunk5 ++ c2Chunk6 ++ c2Chunk7) = c2S7
  simp only [runFrames_append]
  rw [c2Seg0]
  rw [c2Seg1]
  rw [c2Seg2]
  rw [c2Seg3]
  rw [c2Seg4]
  rw [c2Seg5]
  rw [c2Seg6]
  rw [c2Seg7]


theorem c4Seg0 : runFrames initialState c4Chunk0 = c4S0 := by decide!

theorem c4Seg1 : runFrames c4S0 c4Chunk1 = c4S1 := by decide!

theorem c4Seg2 : runFrames c4S1 c4Chunk2 = c4S2 := by decide!

theorem c4Seg3 : runFrames c4S2 c4Chunk3 = c4S3 := by decide!

theorem c4Seg4 : runFrames c4S3 c4Chunk4 = c4S4 := by decide!

theorem c4Seg5 : runFrames c4S4 c4Chunk5 = c4S5 := by decide!

theorem c4Seg6 : runFrames c4S5 c4Chunk6 = c4S6 := by decide!

theorem c4Seg7 : runFrames c4S6 c4Chunk7 = c4S7 := by decide!

theorem c4Seg8 : runFrames c4S7 c4Chunk8 = c4S8 := by decide!

theorem c4Seg9 : runFrames c4S8 c4Chunk9 = c4S9 := by decide!

theorem c4TraceEval : runFrames initialState c4Trace = c4S9 := by
  show runFrames initialState (c4Chunk0 ++ c4Chunk1 ++ c4Chunk2 ++ c4Chunk3 ++ c4Chunk4 ++ c4Chunk5 ++ c4Chunk6 ++ c4Chunk7 ++ c4Chunk8 ++ c4Chunk9) = c4S9
  simp only [runFrames_append]
  rw [c4Seg0]
  rw [c4Seg1]
  rw [c4Seg2]
  rw [c4Seg3]
  rw [c4Seg4]
  rw [c4Seg5]
  rw [c4Seg6]
  rw [c4Seg7]
  rw [c4Seg8]
  rw [c4Seg9]


theorem foldl_pres {α β γ : Type} (f : α → β → α) (proj : α → γ)
    (h : ∀ x b, proj (f x b) = proj x) :
    ∀ (l : List β) (a : α), proj (l.foldl f a) = proj a := by
  intro l
  induction l with
  | nil => intro a; rfl
  | cons hd tl ih => intro a; rw [List.foldl_cons, ih, h]

theorem cloneOne_pres (s : GState) (rng : List Nat) (i : Nat) :
    (cloneOne s rng i).1.player = s.player ∧
    (cloneOne s rng i).1.bricks = s.bricks ∧
    (cloneOne s rng i).1.score = s.score ∧
    (cloneOne s rng i).1.gameState = s.gameState ∧
    (cloneOne s rng i).1.powerups = s.powerups ∧
    (cloneOne s rng i).1.pause = s.pause ∧
    (cloneOne s rng i).1.waiting_for_launch = s.waiting_for_launch := by
  unfold cloneOne
  dsimp only
  repeat' split
  all_goals exact ⟨rfl, rfl, rfl, rfl, rfl, rfl, rfl⟩

theorem apply_powerup_pres (s : GState) (t : PType) (rng : List Nat) :
    (apply_powerup s t rng).1.bricks = s.bricks ∧
    (apply_powerup s t rng).1.gameState = s.gameState ∧
    (apply_powerup s t rng).1.score = s.score ∧
    (apply_powerup s t rng).1.waiting_for_launch = s.waiting_for_launch ∧
    (apply_powerup s t rng).1.pause = s.pause ∧
    (apply_powerup s t rng).1.player.pos = s.player.pos ∧
    (apply_powerup s t rng).1.player.size.y = s.player.size.y := by
  cases t with
  | puNone => exact ⟨rfl, rfl, rfl, rfl, rfl, rfl, rfl⟩
  | puExpand => exact ⟨rfl, rfl, rfl, rfl, rfl, rfl, rfl⟩
  | puExtraLife => exact ⟨rfl, rfl, rfl, rfl, rfl, rfl, rfl⟩
  | puMultiBall =>
      have hp : (([0, 1, 2, 3, 4] : List Nat).foldl
          (fun st i => cloneOne st.1 st.2 i) (s, rng)).1.player = s.player :=
        foldl_pres (fun (st : GState × List Nat) (i : Nat) => cloneOne st.1 st.2 i) (fun (st : GState × List Nat) => st.1.player)
          (fun x b => (cloneOne_pres x.1 x.2 b).1) _ _
      have hb : (([0, 1, 2, 3, 4] : List Nat).foldl
          (fun st i => cloneOne st.1 st.2 i) (s, rng)).1.bricks = s.bricks :=
        foldl_pres (fun (st : GState × List Nat) (i : Nat) => cloneOne st.1 st.2 i) (fun (st : GState × List Nat) => st.1.bricks)
          (fun x b => (cloneOne_pres x.1 x.2 b).2.1) _ _
      have hg : (([0, 1, 2, 3, 4] : List Nat).foldl
          (fun st i => cloneOne st.1 st.2 i) (s, rng)).1.gameState =
            s.gameState :=
        foldl_pres (fun (st : GState × List Nat) (i : Nat) => cloneOne st.1 st.2 i) (fun (st : GState × List Nat) => st.1.gameState)
          (fun x b => (cloneOne_pres x.1 x.2 b).2.2.2.1) _ _
      have hsc : (([0, 1, 2, 3, 4] : List Nat).foldl
          (fun st i => cloneOne st.1 st.2 i) (s, rng)).1.score = s.score :=
        foldl_pres (fun (st : GState × List Nat) (i : Nat) => cloneOne st.1 st.2 i) (fun (st : GState × List Nat) => st.1.score)
          (fun x b => (cloneOne_pres x.1 x.2 b).2.2.1) _ _
      have hw : (([0, 1, 2, 3, 4] : List Nat).foldl
          (fun st i => cloneOne st.1 st.2 i) (s, rng)).1.waiting_for_launch =
            s.waiting_for_launch :=
        foldl_pres (fun (st : GState × List Nat) (i : Nat) => cloneOne st.1 st.2 i) (fun (st : GState × List Nat) => st.1.waiting_for_launch)
          (fun x b => (cloneOne_pres x.1 x.2 b).2.2.2.2.2.2) _ _
      have hpa : (([0, 1, 2, 3, 4] : List Nat).foldl
          (fun st i => cloneOne st.1 st.2 i) (s, rng)).1.pause = s.pause :=
        foldl_pres (fun (st : GState × List Nat) (i : Nat) => cloneOne st.1 st.2 i) (fun (st : GState × List Nat) => st.1.pause)
          (fun x b => (cloneOne_pres x.1 x.2 b).2.2.2.2.2.1) _ _
      exact ⟨hb, hg, hsc, hw, hpa,
        congrArg Player.pos hp, congrArg (fun p => p.size.y) hp⟩

theorem brickHitEffect_pres (s : GState) (br : Brick) (rng : List Nat) :
    (brickHitEffect s br rng).1.player = s.player ∧
    (brickHitEffect s br rng).1.balls = s.balls ∧
    (brickHitEffect s br rng).1.ballsCount = s.ballsCount ∧
    (brickHitEffect s br rng).1.gameState = s.gameState ∧
    (brickHitEffect s br rng).1.waiting_for_launch = s.waiting_for_launch ∧
    (brickHitEffect s br rng).1.pause = s.pause ∧
    (brickHitEffect s br rng).1.bricks = s.bricks ∧
    (brickHitEffect s br rng).1.brickSize = s.brickSize := by
  unfold brickHitEffect
  dsimp only
  split
  · exact ⟨rfl, rfl, rfl, rfl, rfl, rfl, rfl, rfl⟩
  · exact ⟨rfl, rfl, rfl, rfl, rfl, rfl, rfl, rfl⟩

theorem brickHitEffect_score (s : GState) (br : Brick) (rng : List Nat) :
    (brickHitEffect s br rng).1.score = s.score + 100 := by
  unfold brickHitEffect
  dsimp only
  split
  · rfl
  · rfl

theorem brickPassList_pres (l : List Brick) : ∀ (b : Ball) (s : GState)
    (rng : List Nat),
    (brickPassList l b s rng).2.2.1.player = s.player ∧
    (brickPassList l b s rng).2.2.1.balls = s.balls ∧
    (brickPassList l b s rng).2.2.1.ballsCount = s.ballsCount ∧
    (brickPassList l b s rng).2.2.1.gameState = s.gameState ∧
    (brickPassList l b s rng).2.2.1.waiting_for_launch =
      s.waiting_for_launch ∧
    (brickPassList l b s rng).2.2.1.pause = s.pause := by
  induction l with
  | nil => intro b s rng; exact ⟨rfl, rfl, rfl, rfl, rfl, rfl⟩
  | cons hd tl ih =>
      intro b s rng
      unfold brickPassList
      split
      · have he := brickHitEffect_pres s hd rng
        have hi := ih { b with spd := ⟨b.spd.x, -b.spd.y⟩ }
          (brickHitEffect s hd rng).1 (brickHitEffect s hd rng).2
        exact ⟨hi.1.trans he.1, hi.2.1.trans he.2.1,
          hi.2.2.1.trans he.2.2.1, hi.2.2.2.1.trans he.2.2.2.1,
          hi.2.2.2.2.1.trans he.2.2.2.2.1, hi.2.2.2.2.2.trans he.2.2.2.2.2.1⟩
      · exact ih _ _ _

theorem brickPassList_mono (l : List Brick) : ∀ (b : Ball) (s : GState)
    (rng : List Nat) (k : Nat),
    ((brickPassList l b s rng).1.getD k dummyBrick).active = true →
    (l.getD k dummyBrick).active = true := by
  induction l with
  | nil => intro b s rng k h; exact h
  | cons hd tl ih =>
      intro b s rng k
      unfold brickPassList
      split
      · cases k with
        | zero => intro h; simp at h
        | succ n =>
            intro h
            simp only [List.getD_cons_succ] at h ⊢
            exact ih _ _ _ _ h
      · cases k with
        | zero => intro h; exact h
        | succ n =>
            intro h
            simp only [List.getD_cons_succ] at h ⊢
            exact ih _ _ _ _ h

theorem processBall_pres (st : GState × List Nat) (bi : Nat) :
    (processBall st bi).1.player = st.1.player ∧
    (processBall st bi).1.gameState = st.1.gameState ∧
    (processBall st bi).1.waiting_for_launch = st.1.waiting_for_launch ∧
    (processBall st bi).1.pause = st.1.pause := by
  unfold processBall
  dsimp only
  split
  · exact ⟨(brickPassList_pres _ _ _ _).1,
      (brickPassList_pres _ _ _ _).2.2.2.1,
      (brickPassList_pres _ _ _ _).2.2.2.2.1,
      (brickPassList_pres _ _ _ _).2.2.2.2.2⟩
  · exact ⟨rfl, rfl, rfl, rfl⟩

theorem processBall_mono (st : GState × List Nat) (bi k : Nat) :
    ((processBall st bi).1.bricks.getD k dummyBrick).active = true →
    (st.1.bricks.getD k dummyBrick).active = true := by
  unfold processBall
  dsimp only
  split
  · intro h; exact brickPassList_mono _ _ _ _ _ h
  · intro h; exact h

theorem foldl_processBall_mono (l : List Nat) : ∀ (st : GState × List Nat)
    (k : Nat),
    ((l.foldl processBall st).1.bricks.getD k dummyBrick).active = true →
    (st.1.bricks.getD k dummyBrick).active = true := by
  induction l with
  | nil => intro st k h; exact h
  | cons hd tl ih =>
      intro st k h
      exact processBall_mono st hd k (ih (processBall st hd) k h)

theorem movePaddle_geom (p : Player) (i : Input) :
    (movePaddle p i).pos.y = p.pos.y ∧ (movePaddle p i).size = p.size ∧
    (movePaddle p i).life = p.life ∧ (movePaddle p i).speed = p.speed ∧
    (movePaddle p i).expanded = p.expanded :=
  ⟨rfl, rfl, rfl, rfl, rfl⟩

theorem expandDecay_geom (p : Player) (ft : ℚ) :
    (expandDecay p ft).pos = p.pos ∧ (expandDecay p ft).size.y = p.size.y ∧
    (expandDecay p ft).life = p.life := by
  unfold expandDecay
  dsimp only
  repeat' split
  all_goals exact ⟨rfl, rfl, rfl⟩

theorem stickyLaunch_pres (s : GState) (i : Input) (rng : List Nat) :
    (stickyLaunch s i rng).1.player = s.player ∧
    (stickyLaunch s i rng).1.bricks = s.bricks ∧
    (stickyLaunch s i rng).1.gameState = s.gameState ∧
    (stickyLaunch s i rng).1.score = s.score ∧
    (stickyLaunch s i rng).1.pause = s.pause ∧
    (stickyLaunch s i rng).1.powerups = s.powerups := by
  unfold stickyLaunch
  dsimp only
  repeat' split
  all_goals exact ⟨rfl, rfl, rfl, rfl, rfl, rfl⟩

theorem prePhases_facts (s : GState) (i : Input) :
    (prePhases s i).1.bricks = s.bricks ∧
    (prePhases s i).1.gameState = s.gameState ∧
    (prePhases s i).1.pause = s.pause ∧
    (prePhases s i).1.player.pos.y = s.player.pos.y ∧
    (prePhases s i).1.player.size.y = s.player.size.y := by
  unfold prePhases
  have hs := stickyLaunch_pres
    { s with player := expandDecay (movePaddle s.player i) i.ft } i i.rng
  refine ⟨hs.2.1, hs.2.2.1, hs.2.2.2.2.1, ?_, ?_⟩
  · rw [hs.1]
    show (expandDecay (movePaddle s.player i) i.ft).pos.y = s.player.pos.y
    rw [(expandDecay_geom _ _).1, (movePaddle_geom _ _).1]
  · rw [hs.1]
    show (expandDecay (movePaddle s.player i) i.ft).size.y = s.player.size.y
    rw [(expandDecay_geom _ _).2.1, (movePaddle_geom _ _).2.1]

theorem lifeLossPhase_pres (s : GState) :
    (lifeLossPhase s).bricks = s.bricks ∧
    (lifeLossPhase s).powerups = s.powerups ∧
    (lifeLossPhase s).score = s.score ∧
    (lifeLossPhase s).pause = s.pause ∧
    (lifeLossPhase s).player.pos = s.player.pos ∧
    (lifeLossPhase s).player.size = s.player.size ∧
    ((lifeLossPhase s).gameState = s.gameState ∨
      (lifeLossPhase s).gameState = Phase.gameOver) := by
  unfold lifeLossPhase reset_balls
  dsimp only
  repeat' split
  · exact ⟨rfl, rfl, rfl, rfl, rfl, rfl, Or.inr rfl⟩
  · exact ⟨rfl, rfl, rfl, rfl, rfl, rfl, Or.inl rfl⟩
  · exact ⟨rfl, rfl, rfl, rfl, rfl, rfl, Or.inl rfl⟩

theorem powerupStep_pres (st : GState × List Nat) (i : Nat) :
    (powerupStep st i).1.bricks = st.1.bricks ∧
    (powerupStep st i).1.gameState = st.1.gameState ∧
    (powerupStep st i).1.player.pos = st.1.player.pos ∧
    (powerupStep st i).1.player.size.y = st.1.player.size.y ∧
    (powerupStep st i).1.waiting_for_launch = st.1.waiting_for_launch := by
  unfold powerupStep
  dsimp only
  split
  · split
    · exact ⟨(apply_powerup_pres _ _ _).1, (apply_powerup_pres _ _ _).2.1,
        (apply_powerup_pres _ _ _).2.2.2.2.2.1,
        (apply_powerup_pres _ _ _).2.2.2.2.2.2,
        (apply_powerup_pres _ _ _).2.2.2.1⟩
    · exact ⟨rfl, rfl, rfl, rfl, rfl⟩
  · exact ⟨rfl, rfl, rfl, rfl, rfl⟩

theorem powerupFold_pres (l : List Nat) : ∀ (st : GState × List Nat),
    (l.foldl powerupStep st).1.bricks = st.1.bricks ∧
    (l.foldl powerupStep st).1.gameState = st.1.gameState ∧
    (l.foldl powerupStep st).1.player.pos = st.1.player.pos ∧
    (l.foldl powerupStep st).1.player.size.y = st.1.player.size.y := by
  induction l with
  | nil => intro st; exact ⟨rfl, rfl, rfl, rfl⟩
  | cons hd tl ih =>
      intro st
      rw [List.foldl_cons]
      have h1 := powerupStep_pres st hd
      have h2 := ih (powerupStep st hd)
      exact ⟨h2.1.trans h1.1, h2.2.1.trans h1.2.1,
        h2.2.2.1.trans h1.2.2.1, h2.2.2.2.trans h1.2.2.2.1⟩

theorem powerupPhase_pres (st : GState × List Nat) :
    (powerupPhase st).1.bricks = st.1.bricks ∧
    (powerupPhase st).1.gameState = st.1.gameState ∧
    (powerupPhase st).1.player.pos = st.1.player.pos ∧
    (powerupPhase st).1.player.size.y = st.1.player.size.y := by
  unfold powerupPhase
  exact powerupFold_pres (List.range 10) st

theorem ballFold_pres (l : List Nat) : ∀ (st : GState × List Nat),
    (l.foldl processBall st).1.player = st.1.player ∧
    (l.foldl processBall st).1.gameState = st.1.gameState ∧
    (l.foldl processBall st).1.waiting_for_launch =
      st.1.waiting_for_launch ∧
    (l.foldl processBall st).1.pause = st.1.pause := by
  induction l with
  | nil => intro st; exact ⟨rfl, rfl, rfl, rfl⟩
  | cons hd tl ih =>
      intro st
      rw [List.foldl_cons]
      have h1 := processBall_pres st hd
      have h2 := ih (processBall st hd)
      exact ⟨h2.1.trans h1.1, h2.2.1.trans h1.2.1,
        h2.2.2.1.trans h1.2.2.1, h2.2.2.2.trans h1.2.2.2⟩

theorem ballPhase_pres (st : GState × List Nat) :
    (ballPhase st).1.player = st.1.player ∧
    (ballPhase st).1.gameState = st.1.gameState ∧
    (ballPhase st).1.waiting_for_launch = st.1.waiting_for_launch ∧
    (ballPhase st).1.pause = st.1.pause := by
  unfold ballPhase
  exact ballFold_pres [0, 1, 2, 3, 4] st

theorem winCheck_bricks (s : GState) : (winCheck s).bricks = s.bricks := by
  unfold winCheck
  split
  · rfl
  · rfl

theorem winCheck_player (s : GState) : (winCheck s).player = s.player := by
  unfold winCheck
  split
  · rfl
  · rfl

theorem winCheck_gameState (s : GState) :
    (winCheck s).gameState =
      if s.bricks.any (fun br => br.active) then s.gameState
      else Phase.win := by
  unfold winCheck
  split
  · simp [*]
  · simp [*]

theorem wallReflect_geom (b : Ball) :
    (wallReflect b).pos = b.pos ∧ (wallReflect b).radius = b.radius ∧
    (wallReflect b).active = b.active := by
  unfold wallReflect
  dsimp only
  repeat' split
  all_goals exact ⟨rfl, rfl, rfl⟩

theorem playingStep_geom (s : GState) (i : Input) :
    (playingStep s i).player.pos.y = s.player.pos.y ∧
    (playingStep s i).player.size.y = s.player.size.y := by
  have h1 := prePhases_facts s i
  have h2 := ballPhase_pres (prePhases s i)
  have h3 := lifeLossPhase_pres (ballPhase (prePhases s i)).1
  have h4 := powerupPhase_pres
    (lifeLossPhase (ballPhase (prePhases s i)).1, (ballPhase (prePhases s i)).2)
  have e4p : (powerupPhase (lifeLossPhase (ballPhase (prePhases s i)).1,
      (ballPhase (prePhases s i)).2)).1.player.pos =
      (lifeLossPhase (ballPhase (prePhases s i)).1).player.pos := h4.2.2.1
  have e4s : (powerupPhase (lifeLossPhase (ballPhase (prePhases s i)).1,
      (ballPhase (prePhases s i)).2)).1.player.size.y =
      (lifeLossPhase (ballPhase (prePhases s i)).1).player.size.y := h4.2.2.2
  have e3s : (lifeLossPhase (ballPhase (prePhases s i)).1).player.size =
      (ballPhase (prePhases s i)).1.player.size := h3.2.2.2.2.2.1
  unfold playingStep
  dsimp only
  constructor
  · rw [winCheck_player, e4p, h3.2.2.2.2.1, h2.1, h1.2.2.2.1]
  · rw [winCheck_player, e4s, e3s, h2.1, h1.2.2.2.2]

theorem allocPowerup_split (pre : List Powerup) (p : Powerup)
    (post : List Powerup) (np : Powerup)
    (hpre : (pre.all fun q => q.active) = true) (hp : p.active = false) :
    allocPowerup (pre ++ p :: post) np = pre ++ np :: post := by
  induction pre with
  | nil =>
      simp only [List.nil_append]
      unfold allocPowerup
      rw [if_neg (by rw [hp]; exact Bool.false_ne_true)]
  | cons hd tl ih =>
      rw [List.all_cons, Bool.and_eq_true] at hpre
      simp only [List.cons_append]
      unfold allocPowerup
      rw [if_pos hpre.1, ih hpre.2]

theorem countP_zero_iff_any_false (l : List Brick) :
    l.countP (fun br => br.active) = 0 ↔
      (l.any fun br => br.active) = false := by
  induction l with
  | nil => simp
  | cons hd tl ih =>
      rw [List.countP_cons, List.any_cons]
      by_cases h : hd.active = true
      · simp [h]
      · have hf : hd.active = false := by
          cases hhd : hd.active
          · rfl
          · exact absurd hhd h
        simp [hf, ih]

theorem allocPowerup_full (l : List Powerup) (np : Powerup)
    (h : (l.all fun p => p.active) = true) :
    allocPowerup l np = l := by
  induction l with
  | nil => rfl
  | cons hd tl ih =>
      rw [List.all_cons, Bool.and_eq_true] at h
      unfold allocPowerup
      rw [if_pos h.1, ih h.2]

theorem winCheck_win_iff (s : GState) (hs : s.gameState ≠ Phase.win) :
    ((winCheck s).gameState = Phase.win ↔
      (winCheck s).bricks.countP (fun br => br.active) = 0) := by
  unfold winCheck
  split
  next hany =>
    constructor
    · intro hw
      exact absurd hw hs
    · intro hc
      rw [countP_zero_iff_any_false] at hc
      rw [hc] at hany
      exact absurd hany Bool.false_ne_true
  next hany =>
    constructor
    · intro _
      show s.bricks.countP (fun br => br.active) = 0
      rw [countP_zero_iff_any_false]
      cases hx : (s.bricks.any fun br => br.active)
      · rfl
      · exact absurd hx hany
    · intro _
      rfl

theorem playingStep_bricks_eq (s : GState) (i : Input) :
    (playingStep s i).bricks = (ballPhase (prePhases s i)).1.bricks := by
  unfold playingStep
  dsimp only
  rw [winCheck_bricks]
  rw [(powerupPhase_pres _).1]
  dsimp only
  rw [(lifeLossPhase_pres _).1]

theorem playingStep_mono (s : GState) (i : Input) (k : Nat)
    (h : ((playingStep s i).bricks.getD k dummyBrick).active = true) :
    (s.bricks.getD k dummyBrick).active = true := by
  rw [playingStep_bricks_eq] at h
  have hmono : ∀ (st : GState × List Nat) (k2 : Nat),
      ((ballPhase st).1.bricks.getD k2 dummyBrick).active = true →
      (st.1.bricks.getD k2 dummyBrick).active = true := by
    intro st k2
    unfold ballPhase
    exact foldl_processBall_mono [0, 1, 2, 3, 4] st k2
  have h3 := hmono (prePhases s i) k h
  rw [(prePhases_facts s i).1] at h3
  exact h3

theorem playingStep_pre_win_gameState (s : GState) (i : Input)
    (hp : s.gameState = Phase.playing) :
    (powerupPhase (lifeLossPhase (ballPhase (prePhases s i)).1,
      (ballPhase (prePhases s i)).2)).1.gameState = Phase.playing ∨
    (powerupPhase (lifeLossPhase (ballPhase (prePhases s i)).1,
      (ballPhase (prePhases s i)).2)).1.gameState = Phase.gameOver := by
  have h4 := (powerupPhase_pres (lifeLossPhase (ballPhase (prePhases s i)).1,
    (ballPhase (prePhases s i)).2)).2.1
  have h5 := (lifeLossPhase_pres (ballPhase (prePhases s i)).1).2.2.2.2.2.2
  have hb : (ballPhase (prePhases s i)).1.gameState = Phase.playing := by
    rw [(ballPhase_pres _).2.1, (prePhases_facts s i).2.1, hp]
  rcases h5 with h5 | h5
  · left
    rw [h4]
    exact h5.trans hb
  · right
    rw [h4]
    exact h5

theorem playingStep_win_iff (s : GState) (i : Input)
    (hp : s.gameState = Phase.playing) :
    ((playingStep s i).gameState = Phase.win ↔
      (playingStep s i).bricks.countP (fun br => br.active) = 0) := by
  have hps : playingStep s i = winCheck (powerupPhase
      (lifeLossPhase (ballPhase (prePhases s i)).1,
       (ballPhase (prePhases s i)).2)).1 := rfl
  rw [hps]
  refine winCheck_win_iff _ ?_
  intro hw
  rcases playingStep_pre_win_gameState s i hp with h | h
  · rw [hw] at h
    exact Phase.noConfusion h
  · rw [hw] at h
    exact Phase.noConfusion h

/-- Claim C1 (counterexample): the spec says a ball may hit only the
FIRST still-active brick it overlaps in scan order per frame.  In the
reachable state c1S2 the ball reaches bricks 44 and 45 simultaneously
with both overlapping: the frame destroys BOTH bricks, adds 200 to the
score, and the two y-flips cancel so the vertical velocity is unchanged
— the per-frame first-hit check c1FrameCheck is false. -/
theorem c1_counterexample :
    reachable c1S2 ∧
    c1FrameCheck c1S2 c1HitI = false ∧
    (c1S2.bricks.getD 44 dummyBrick).active = true ∧
    (c1S2.bricks.getD 45 dummyBrick).active = true ∧
    (update_game c1S2 c1HitI).score = c1S2.score + 200 ∧
    ((update_game c1S2 c1HitI).bricks.getD 44 dummyBrick).active = false ∧
    ((update_game c1S2 c1HitI).bricks.getD 45 dummyBrick).active = false ∧
    ((update_game c1S2 c1HitI).balls.getD 0 dummyBall).spd.y =
      (c1S2.balls.getD 0 dummyBall).spd.y := by
  have hpost : update_game c1S2 c1HitI = c1Post := by decide!
  refine ⟨⟨c1Trace, c1TraceEval⟩, by decide!, by decide!, by decide!,
    ?_, ?_, ?_, ?_⟩
  · rw [hpost]
    decide!
  · rw [hpost]
    decide!
  · rw [hpost]
    decide!
  · rw [hpost]
    decide!

/-- Claim C1 (amended): during a ball's brick scan the bricks are tested
in row-major scan order, and EVERY still-active brick the ball overlaps
is deactivated (there is no early exit after the first hit): with k
overlapping active bricks the score grows by exactly 100 for each of
them, the ball's vertical velocity sign flips once per hit (so it is net
unchanged for even k), and the ball's position, horizontal velocity,
radius and active flag are unchanged by the scan. -/
theorem c1_brick_scan (l : List Brick) : ∀ (b : Ball) (s : GState)
    (rng : List Nat),
    (brickPassList l b s rng).1 =
      l.map (fun br =>
        if br.active && checkCollisionCircleRec b.pos b.radius br.rect then
          { br with active := false }
        else br) ∧
    (brickPassList l b s rng).2.2.1.score =
      s.score + 100 * (hitCount l b.pos b.radius : Int) ∧
    (brickPassList l b s rng).2.1.spd.y =
      (if hitCount l b.pos b.radius % 2 = 0 then b.spd.y else -b.spd.y) ∧
    (brickPassList l b s rng).2.1.pos = b.pos ∧
    (brickPassList l b s rng).2.1.spd.x = b.spd.x ∧
    (brickPassList l b s rng).2.1.radius = b.radius ∧
    (brickPassList l b s rng).2.1.active = b.active := by
  induction l with
  | nil =>
      intro b s rng
      refine ⟨rfl, ?_, ?_, rfl, rfl, rfl, rfl⟩
      · show s.score = s.score + 100 * (hitCount [] b.pos b.radius : Int)
        simp [hitCount]
      · show b.spd.y = _
        simp [hitCount]
  | cons hd tl ih =>
      intro b s rng
      by_cases hhit :
        (hd.active && checkCollisionCircleRec b.pos b.radius hd.rect) = true
      · have hcnt : hitCount (hd :: tl) b.pos b.radius =
            hitCount tl b.pos b.radius + 1 := by
          unfold hitCount
          rw [List.countP_cons, if_pos hhit]
        have ihh := ih { b with spd := ⟨b.spd.x, -b.spd.y⟩ }
          (brickHitEffect s hd rng).1 (brickHitEffect s hd rng).2
        dsimp only at ihh
        unfold brickPassList
        rw [if_pos hhit]
        dsimp only
        refine ⟨?_, ?_, ?_, ihh.2.2.2.1, ihh.2.2.2.2.1,
          ihh.2.2.2.2.2.1, ihh.2.2.2.2.2.2⟩
        · rw [List.map_cons, if_pos hhit]
          exact congrArg (List.cons { hd with active := false }) ihh.1
        · rw [hcnt]
          have hsc := ihh.2.1
          rw [brickHitEffect_score] at hsc
          rw [hsc]
          push_cast
          ring
        · rw [hcnt]
          rw [ihh.2.2.1]
          by_cases hpar : hitCount tl b.pos b.radius % 2 = 0
          · rw [if_pos hpar, if_neg (by omega)]
          · rw [if_neg hpar, if_pos (by omega), neg_neg]
      · have hcnt : hitCount (hd :: tl) b.pos b.radius =
            hitCount tl b.pos b.radius := by
          unfold hitCount
          rw [List.countP_cons, if_neg hhit, Nat.add_zero]
        have ihh := ih b s rng
        unfold brickPassList
        rw [if_neg hhit]
        dsimp only
        refine ⟨?_, ?_, ?_, ihh.2.2.2.1, ihh.2.2.2.2.1,
          ihh.2.2.2.2.2.1, ihh.2.2.2.2.2.2⟩
        · rw [List.map_cons, if_neg hhit]
          exact congrArg (List.cons hd) ihh.1
        · rw [hcnt]
          exact ihh.2.1
        · rw [hcnt]
          exact ihh.2.2.1

/-- Claim C2 (counterexample): the paddle-extent invariant fails at the
end of a rendered frame.  The state c2S7 is reachable (272 concrete
frames: steer right, park at the clamp, catch an Expand powerup at the
right edge) and leaves the frame in the Playing phase with
pos.x + size.x = 820 + 210 = 1030 > 960. -/
theorem c2_counterexample :
    reachable c2S7 ∧
    c2S7.gameState = Phase.playing ∧
    screenWidth < c2S7.player.pos.x + c2S7.player.size.x := by
  exact ⟨⟨c2Trace, c2TraceEval⟩, by decide!, by decide!⟩

/-- Claim C2 (amended): the clamp point itself is sound — right after
the movement-and-clamp block of a frame the paddle extent lies within
[0, screenWidth] whenever the paddle is no wider than the screen.  The
invariant claimed for whole frames fails because apply_powerup widens
the paddle to 210 AFTER the clamp already ran (see the counterexample
theorem). -/
theorem c2_clamp (p : Player) (i : Input) (hw : p.size.x ≤ screenWidth) :
    0 ≤ (movePaddle p i).pos.x ∧
    (movePaddle p i).pos.x + (movePaddle p i).size.x ≤ screenWidth := by
  unfold movePaddle
  dsimp only
  split_ifs <;> constructor <;> linarith

/-- Witness for the amended C2 theorem at a concrete paddle and input. -/
theorem c2_clamp_witness :
    initialState.player.size.x ≤ screenWidth ∧
    0 ≤ (movePaddle initialState.player rightI).pos.x ∧
    (movePaddle initialState.player rightI).pos.x +
      (movePaddle initialState.player rightI).size.x ≤ screenWidth := by
  have h := c2_clamp initialState.player rightI (by with_unfolding_all decide)
  exact ⟨by with_unfolding_all decide, h.1, h.2⟩

/-- Claim C3 (code bug): the launch block sets ball 0 active without
incrementing ballsCount, so relaunching while a MultiBall clone is still
in flight desynchronizes the counter: from c3PreState (one active clone,
ballsCount 1, ball 0 resting) the relaunch yields two active balls with
ballsCount still 1, and a subsequent MultiBall application clones twice
more, ending with FOUR active balls — the cap of 3 is violated. -/
theorem c3_bug :
    activeBalls c3PreState = 1 ∧
    c3PreState.ballsCount = 1 ∧
    activeBalls c3Relaunch = 2 ∧
    c3Relaunch.ballsCount = 1 ∧
    activeBalls (apply_powerup c3Relaunch PType.puMultiBall [0, 0]).1 = 4 ∧
    3 < activeBalls (apply_powerup c3Relaunch PType.puMultiBall [0, 0]).1 := by
  decide!

/-- Claim C4 (counterexample): the wall-reflection sign conditions do
not hold in every reachable state.  c4S9 is reachable (266 concrete
frames ending in a MultiBall collected at the left edge, which spawns a
clone inside the wall band with inverted velocity); on the next frame
the clone in slot 1 touches the left wall and the reflection flips its
inward velocity to point OUT of the field: c4FrameCheck is false. -/
theorem c4_counterexample :
    reachable c4S9 ∧
    c4S9.gameState = Phase.playing ∧
    c4S9.pause = false ∧
    c4FrameCheck c4S9 neutralI = false := by
  exact ⟨⟨c4Trace, c4TraceEval⟩, by decide!, by decide!, by decide!⟩

/-- Claim C4 (amended): the sign conditions DO hold on the first frame
of contact: if a ball was strictly inside a boundary before the Euler
step and its edge reaches or crosses that boundary after it, the
reflected velocity component points back inside.  (The unconditional
every-reachable-state version fails for clones spawned inside a wall
band — see the counterexample theorem.) -/
theorem c4_first_contact (b : Ball) :
    (0 < b.pos.x - b.radius →
      (wallReflect (moveBall b)).pos.x - b.radius ≤ 0 →
      0 ≤ (wallReflect (moveBall b)).spd.x) ∧
    (b.pos.x + b.radius < screenWidth →
      screenWidth ≤ (wallReflect (moveBall b)).pos.x + b.radius →
      (wallReflect (moveBall b)).spd.x ≤ 0) ∧
    (0 < b.pos.y - b.radius →
      (wallReflect (moveBall b)).pos.y - b.radius ≤ 0 →
      0 ≤ (wallReflect (moveBall b)).spd.y) := by
  have hg := wallReflect_geom (moveBall b)
  have hmx : (moveBall b).pos.x = b.pos.x + b.spd.x := rfl
  have hmy : (moveBall b).pos.y = b.pos.y + b.spd.y := rfl
  have hrad : (moveBall b).radius = b.radius := rfl
  refine ⟨?_, ?_, ?_⟩
  · intro h1 h2
    rw [hg.1, hmx] at h2
    have hv : b.spd.x < 0 := by linarith
    have hc : (moveBall b).pos.x - (moveBall b).radius ≤ 0 ∨
        screenWidth ≤ (moveBall b).pos.x + (moveBall b).radius :=
      Or.inl (by rw [hmx, hrad]; linarith)
    have hx : (wallReflect (moveBall b)).spd.x = -(moveBall b).spd.x := by
      unfold wallReflect
      dsimp only
      rw [if_pos hc]
      dsimp only
      split
      · rfl
      · rfl
    rw [hx, show (moveBall b).spd.x = b.spd.x from rfl]
    linarith
  · intro h1 h2
    rw [hg.1, hmx] at h2
    have hv : 0 < b.spd.x := by linarith
    have hc : (moveBall b).pos.x - (moveBall b).radius ≤ 0 ∨
        screenWidth ≤ (moveBall b).pos.x + (moveBall b).radius :=
      Or.inr (by rw [hmx, hrad]; linarith)
    have hx : (wallReflect (moveBall b)).spd.x = -(moveBall b).spd.x := by
      unfold wallReflect
      dsimp only
      rw [if_pos hc]
      dsimp only
      split
      · rfl
      · rfl
    rw [hx, show (moveBall b).spd.x = b.spd.x from rfl]
    linarith
  · intro h1 h2
    rw [hg.1, hmy] at h2
    have hv : b.spd.y < 0 := by linarith
    have hy : (wallReflect (moveBall b)).spd.y = -(moveBall b).spd.y := by
      unfold wallReflect
      dsimp only
      by_cases hc1 : (moveBall b).pos.x - (moveBall b).radius ≤ 0 ∨
          screenWidth ≤ (moveBall b).pos.x + (moveBall b).radius
      · rw [if_pos hc1]
        dsimp only
        rw [if_pos (show (moveBall b).pos.y - (moveBall b).radius ≤ 0 from by
          rw [hmy, hrad]; linarith)]
      · rw [if_neg hc1]
        rw [if_pos (show (moveBall b).pos.y - (moveBall b).radius ≤ 0 from by
          rw [hmy, hrad]; linarith)]
    rw [hy, show (moveBall b).spd.y = b.spd.y from rfl]
    linarith

/-- Witness for the amended C4 theorem: three concrete balls, one per
wall, each strictly inside before the move and touching after. -/
theorem c4_first_contact_witness :
    (0 < (10 : ℚ) - 5 ∧
      (wallReflect (moveBall ⟨⟨10, 300⟩, ⟨-8, 1⟩, 5, true⟩)).pos.x - 5 ≤ 0 ∧
      0 ≤ (wallReflect (moveBall ⟨⟨10, 300⟩, ⟨-8, 1⟩, 5, true⟩)).spd.x) ∧
    ((952 : ℚ) + 5 < screenWidth ∧
      screenWidth ≤
        (wallReflect (moveBall ⟨⟨952, 300⟩, ⟨6, 1⟩, 5, true⟩)).pos.x + 5 ∧
      (wallReflect (moveBall ⟨⟨952, 300⟩, ⟨6, 1⟩, 5, true⟩)).spd.x ≤ 0) ∧
    (0 < (10 : ℚ) - 5 ∧
      (wallReflect (moveBall ⟨⟨300, 10⟩, ⟨1, -8⟩, 5, true⟩)).pos.y - 5 ≤ 0 ∧
      0 ≤ (wallReflect (moveBall ⟨⟨300, 10⟩, ⟨1, -8⟩, 5, true⟩)).spd.y) := by
  refine ⟨⟨by with_unfolding_all decide, by with_unfolding_all decide, ?_⟩,
    ⟨by with_unfolding_all decide, by with_unfolding_all decide, ?_⟩,
    ⟨by with_unfolding_all decide, by with_unfolding_all decide, ?_⟩⟩
  · exact (c4_first_contact ⟨⟨10, 300⟩, ⟨-8, 1⟩, 5, true⟩).1
      (by with_unfolding_all decide) (by with_unfolding_all decide)
  · exact (c4_first_contact ⟨⟨952, 300⟩, ⟨6, 1⟩, 5, true⟩).2.1
      (by with_unfolding_all decide) (by with_unfolding_all decide)
  · exact (c4_first_contact ⟨⟨300, 10⟩, ⟨1, -8⟩, 5, true⟩).2.2
      (by with_unfolding_all decide) (by with_unfolding_all decide)

/-- Claim C5: at the life-loss step, when no ball is active and the
launch-wait flag is clear, the lives counter drops by exactly one; at
zero or below the phase flips to GameOver, otherwise the phase stays
Playing, the pool is reset to a single inactive ball pinned above the
paddle center, and the launch-wait flag is set. -/
theorem c5_life_loss (s : GState) (hp : s.gameState = Phase.playing)
    (hb : (s.balls.any fun b => b.active) = false)
    (hw : s.waiting_for_launch = false) :
    (s.player.life - 1 ≤ 0 →
      (lifeLossPhase s).gameState = Phase.gameOver ∧
      (lifeLossPhase s).player.life = s.player.life - 1) ∧
    (0 < s.player.life - 1 →
      (lifeLossPhase s).gameState = Phase.playing ∧
      (lifeLossPhase s).player.life = s.player.life - 1 ∧
      (lifeLossPhase s).waiting_for_launch = true ∧
      (lifeLossPhase s).ballsCount = 1 ∧
      (lifeLossPhase s).balls =
        (s.balls.map fun b => { b with active := false }).set 0
          ⟨⟨s.player.pos.x + s.player.size.x / 2,
            s.player.pos.y - (s.balls.getD 0 dummyBall).radius - 2⟩,
           ⟨0, 0⟩, 12, false⟩) := by
  constructor
  · intro hlife
    unfold lifeLossPhase
    dsimp only
    rw [hb, hw]
    rw [if_pos (show ((!false && !false) = true) from rfl)]
    rw [if_pos hlife]
    exact ⟨rfl, rfl⟩
  · intro hlife
    unfold lifeLossPhase
    dsimp only
    rw [hb, hw]
    rw [if_pos (show ((!false && !false) = true) from rfl)]
    rw [if_neg (show ¬ (s.player.life - 1 ≤ 0) from by omega)]
    exact ⟨hp, rfl, rfl, rfl, rfl⟩

/-- Witness for C5 at concrete states: one life left gives GameOver, two
lives left gives a respawn with one life less. -/
theorem c5_life_loss_witness :
    (c5StateA.gameState = Phase.playing ∧
      (c5StateA.balls.any fun b => b.active) = false ∧
      c5StateA.waiting_for_launch = false ∧
      (lifeLossPhase c5StateA).gameState = Phase.gameOver ∧
      (lifeLossPhase c5StateA).player.life = 0) ∧
    ((lifeLossPhase c5StateB).gameState = Phase.playing ∧
      (lifeLossPhase c5StateB).player.life = 1 ∧
      (lifeLossPhase c5StateB).waiting_for_launch = true) := by
  have hA := c5_life_loss c5StateA (by with_unfolding_all decide)
    (by with_unfolding_all decide) (by with_unfolding_all decide)
  have hB := c5_life_loss c5StateB (by with_unfolding_all decide)
    (by with_unfolding_all decide) (by with_unfolding_all decide)
  have hA1 := hA.1 (by with_unfolding_all decide)
  have hB1 := hB.2 (by with_unfolding_all decide)
  refine ⟨⟨by with_unfolding_all decide, by with_unfolding_all decide,
    by with_unfolding_all decide, hA1.1, ?_⟩, hB1.1, ?_, hB1.2.2.1⟩
  · rw [hA1.2]
    with_unfolding_all decide
  · rw [hB1.2.1]
    with_unfolding_all decide

/-- Claim C6: from any GameOver state (with the usual 5-slot ball pool),
a confirm input returns to Title and a start input then yields a fresh
Playing state: score 0, 3 lives, paddle at its default (pos ⟨410, 670⟩,
size ⟨140, 22⟩, speed 8, not expanded), exactly one (inactive) ball
pinned at ⟨480, 656⟩ above the paddle center, all 50 bricks active, all
powerup slots inactive, pause false, launch-wait true. -/
theorem c6_round_trip (s : GState) (i1 i2 : Input)
    (hg : s.gameState = Phase.gameOver) (hl : s.balls.length = 5)
    (h1 : i1.enter = true) (h2 : i2.space = true) :
    (update_game s i1).gameState = Phase.title ∧
    (update_game (update_game s i1) i2).gameState = Phase.playing ∧
    (update_game (update_game s i1) i2).score = 0 ∧
    (update_game (update_game s i1) i2).player =
      ⟨⟨410, 670⟩, ⟨140, 22⟩, 3, 8, false, 0⟩ ∧
    (update_game (update_game s i1) i2).balls.getD 0 dummyBall =
      ⟨⟨480, 656⟩, ⟨0, 0⟩, 12, false⟩ ∧
    ((update_game (update_game s i1) i2).balls.all fun b => !b.active) =
      true ∧
    (update_game (update_game s i1) i2).balls.length = 5 ∧
    (update_game (update_game s i1) i2).ballsCount = 1 ∧
    (update_game (update_game s i1) i2).bricks.length = 50 ∧
    ((update_game (update_game s i1) i2).bricks.all fun br => br.active) =
      true ∧
    ((update_game (update_game s i1) i2).powerups.all fun p => !p.active) =
      true ∧
    (update_game (update_game s i1) i2).pause = false ∧
    (update_game (update_game s i1) i2).waiting_for_launch = true := by
  have hu1 : update_game s i1 = { s with gameState := Phase.title } := by
    unfold update_game
    rw [hg]
    dsimp only
    rw [h1, Bool.true_or, if_pos rfl]
  have hu2 : update_game { s with gameState := Phase.title } i2 =
      { init_game { s with gameState := Phase.title } with
        gameState := Phase.playing } := by
    unfold update_game
    dsimp only
    rw [h2, Bool.true_or, if_pos rfl]
  have hpl : (init_game { s with gameState := Phase.title }).player =
      ⟨⟨410, 670⟩, ⟨140, 22⟩, 3, 8, false, 0⟩ := by
    unfold init_game
    dsimp only
    norm_num [screenWidth, screenHeight]
  have hb0 : (init_game { s with gameState := Phase.title }).balls.getD 0
      dummyBall = ⟨⟨480, 656⟩, ⟨0, 0⟩, 12, false⟩ := by
    unfold init_game
    dsimp only
    match hsb : s.balls with
    | [] =>
        rw [hsb] at hl
        simp at hl
    | a :: rest =>
        simp only [List.map_cons, List.set_cons_zero, List.getD_cons_zero]
        norm_num [screenWidth, screenHeight]
  have hbi : ((init_game { s with gameState := Phase.title }).balls.all
      fun b => !b.active) = true := by
    unfold init_game
    dsimp only
    rw [List.all_eq_true]
    intro x hx
    rcases List.mem_or_eq_of_mem_set hx with hx2 | hx2
    · rcases List.mem_map.mp hx2 with ⟨y, hy, rfl⟩
      rfl
    · rw [hx2]
      rfl
  have hblen : (init_game { s with gameState := Phase.title }).balls.length
      = 5 := by
    unfold init_game
    dsimp only
    rw [List.length_set, List.length_map]
    exact hl
  have hbra : ((init_game { s with gameState := Phase.title }).bricks.all
      fun br => br.active) = true := by
    unfold init_game
    dsimp only
    rw [List.all_eq_true]
    intro x hx
    rcases List.mem_map.mp hx with ⟨y, hy, rfl⟩
    rfl
  have hbrl : (init_game { s with gameState := Phase.title }).bricks.length
      = 50 := by
    unfold init_game
    dsimp only
    rw [List.length_map, List.length_range]
  have hpw : ((init_game { s with gameState := Phase.title }).powerups.all
      fun p => !p.active) = true := by
    unfold init_game
    dsimp only
    rw [List.all_eq_true]
    intro x hx
    rcases List.mem_map.mp hx with ⟨y, hy, rfl⟩
    rfl
  rw [hu1, hu2]
  exact ⟨rfl, rfl, rfl, hpl, hb0, hbi, hblen, rfl, hbrl, hbra, hpw, rfl, rfl⟩

/-- Witness for C6 at a concrete GameOver state and concrete inputs. -/
theorem c6_round_trip_witness :
    c6WitnessState.gameState = Phase.gameOver ∧
    c6WitnessState.balls.length = 5 ∧
    enterI.enter = true ∧
    startI.space = true ∧
    (update_game c6WitnessState enterI).gameState = Phase.title ∧
    (update_game (update_game c6WitnessState enterI) startI).gameState =
      Phase.playing ∧
    (update_game (update_game c6WitnessState enterI) startI).score = 0 := by
  have h := c6_round_trip c6WitnessState enterI startI
    (by with_unfolding_all decide) (by with_unfolding_all decide)
    (by with_unfolding_all decide) (by with_unfolding_all decide)
  exact ⟨by with_unfolding_all decide, by with_unfolding_all decide,
    by with_unfolding_all decide, by with_unfolding_all decide,
    h.1, h.2.1, h.2.2.1⟩

/-- Claim C7: within a round (one Playing-phase frame at a time), brick
destruction is monotone — a brick active after the frame was active
before it — and, whenever the frame actually simulates (the effective
pause flag is off), the end-of-frame phase is Win exactly when the
active-brick count has reached 0. -/
theorem c7_bricks_monotone_win (s : GState) (i : Input)
    (hp : s.gameState = Phase.playing) :
    (∀ k : Nat, ((update_game s i).bricks.getD k dummyBrick).active = true →
      (s.bricks.getD k dummyBrick).active = true) ∧
    ((if i.pkey then !s.pause else s.pause) = false →
      ((update_game s i).gameState = Phase.win ↔
        activeBricks (update_game s i) = 0)) := by
  have hred : update_game s i =
      (if (if i.pkey then { s with pause := !s.pause } else s).pause then
        (if i.pkey then { s with pause := !s.pause } else s)
      else
        playingStep (if i.pkey then { s with pause := !s.pause } else s) i) := by
    unfold update_game
    rw [hp]
  have hs1pause : (if i.pkey then { s with pause := !s.pause } else s).pause =
      (if i.pkey then !s.pause else s.pause) := by
    split
    · rfl
    · rfl
  have hs1g : (if i.pkey then { s with pause := !s.pause } else s).gameState =
      s.gameState := by
    split
    · rfl
    · rfl
  have hs1b : (if i.pkey then { s with pause := !s.pause } else s).bricks =
      s.bricks := by
    split
    · rfl
    · rfl
  constructor
  · intro k h
    rw [hred] at h
    by_cases hps : (if i.pkey then { s with pause := !s.pause } else s).pause
    · rw [if_pos hps] at h
      rw [hs1b] at h
      exact h
    · rw [if_neg hps] at h
      have h2 := playingStep_mono _ i k h
      rw [hs1b] at h2
      exact h2
  · intro hpause
    have hps : (if i.pkey then { s with pause := !s.pause } else s).pause =
        false := by
      rw [hs1pause]
      exact hpause
    rw [hred]
    rw [if_neg (show ¬ ((if i.pkey then { s with pause := !s.pause } else
      s).pause = true) from by rw [hps]; exact Bool.false_ne_true)]
    have hg1 : (if i.pkey then { s with pause := !s.pause } else s).gameState =
        Phase.playing := by
      rw [hs1g]
      exact hp
    have hwin := playingStep_win_iff _ i hg1
    unfold activeBricks
    exact hwin

/-- Witness for C7 at a concrete Playing state and a neutral input. -/
theorem c7_bricks_monotone_win_witness :
    c7WitnessState.gameState = Phase.playing ∧
    ((((update_game c7WitnessState neutralI).bricks.getD 0
        dummyBrick).active = true) →
      ((c7WitnessState.bricks.getD 0 dummyBrick).active = true)) ∧
    ((if neutralI.pkey then !c7WitnessState.pause else c7WitnessState.pause)
        = false →
      ((update_game c7WitnessState neutralI).gameState = Phase.win ↔
        activeBricks (update_game c7WitnessState neutralI) = 0)) := by
  have h := c7_bricks_monotone_win c7WitnessState neutralI
    (by with_unfolding_all decide)
  exact ⟨by with_unfolding_all decide, h.1 0, h.2⟩

/-- Claim C8: on a ball-paddle overlap the ball's vertical velocity sign
is flipped and its horizontal velocity is OVERWRITTEN with 6 times the
offset of the ball from the paddle center, normalized by the half
width; in particular a dead-center hit leaves horizontal velocity 0. -/
theorem c8_paddle_bounce (p : Player) (b : Ball)
    (h : checkCollisionCircleRec b.pos b.radius (paddleRect p) = true) :
    (paddleBounce p b).spd.y = -b.spd.y ∧
    (paddleBounce p b).spd.x =
      6 * ((b.pos.x - (p.pos.x + p.size.x / 2)) / (p.size.x / 2)) ∧
    (b.pos.x = p.pos.x + p.size.x / 2 → (paddleBounce p b).spd.x = 0) ∧
    (paddleBounce p b).pos = b.pos ∧
    (paddleBounce p b).radius = b.radius := by
  unfold paddleBounce
  rw [if_pos h]
  dsimp only
  refine ⟨rfl, rfl, ?_, rfl, rfl⟩
  intro hx
  rw [hx]
  simp

/-- Witness for C8: a ball resting dead-center on the fresh paddle
bounces straight up with zero horizontal velocity. -/
theorem c8_paddle_bounce_witness :
    checkCollisionCircleRec (⟨480, 660⟩ : V2) 12
      (paddleRect initialState.player) = true ∧
    (paddleBounce initialState.player
      ⟨⟨480, 660⟩, ⟨3, 5⟩, 12, true⟩).spd.y = -5 ∧
    (paddleBounce initialState.player
      ⟨⟨480, 660⟩, ⟨3, 5⟩, 12, true⟩).spd.x = 0 := by
  have h := c8_paddle_bounce initialState.player
    ⟨⟨480, 660⟩, ⟨3, 5⟩, 12, true⟩ (by with_unfolding_all decide)
  refine ⟨by with_unfolding_all decide, ?_, ?_⟩
  · rw [h.1]
  · exact h.2.2.1 (by with_unfolding_all decide)

/-- Claim C9: spawn_powerup with all 10 slots active is a silent no-op
returning the state entirely unchanged (powerups, paddle, balls, score
and phase included); with a free slot it writes a powerup with fall
velocity (0,2) into the FIRST inactive slot, choosing the variant from
the draw r in [0,100): under 40 Expand, under 70 ExtraLife, else
MultiBall. -/
theorem c9_spawn_powerup (s : GState) (pos : V2) (rng : List Nat) :
    ((s.powerups.all fun p => p.active) = true →
      (spawn_powerup s pos rng).1 = s) ∧
    (∀ (pre post : List Powerup) (q : Powerup),
      s.powerups = pre ++ q :: post →
      (pre.all fun x => x.active) = true →
      q.active = false →
      (spawn_powerup s pos rng).1 =
        { s with powerups := pre ++
            (⟨pos, ⟨0, 2⟩,
              spawnChoice (((rng.headD 0 : Nat) : Int) % 100),
              true⟩ : Powerup) :: post }) ∧
    (∀ r : Int, (r < 40 → spawnChoice r = PType.puExpand) ∧
      (40 ≤ r → r < 70 → spawnChoice r = PType.puExtraLife) ∧
      (70 ≤ r → spawnChoice r = PType.puMultiBall)) := by
  refine ⟨?_, ?_, ?_⟩
  · intro h
    unfold spawn_powerup
    dsimp only
    rw [allocPowerup_full _ _ h]
  · intro pre post q hsp hpre hq
    unfold spawn_powerup
    dsimp only
    rw [hsp, allocPowerup_split pre q post _ hpre hq]
    rfl
  · intro r
    refine ⟨?_, ?_, ?_⟩
    · intro h
      unfold spawnChoice
      rw [if_pos h]
    · intro h1 h2
      unfold spawnChoice
      rw [if_neg (by omega), if_pos h2]
    · intro h
      unfold spawnChoice
      rw [if_neg (by omega), if_neg (by omega)]

/-- Witness for C9: the full pool is a no-op on a concrete state; on the
fresh state the first slot (index 0) receives the powerup; the three
draws 35, 65, 85 map to Expand, ExtraLife, MultiBall. -/
theorem c9_spawn_powerup_witness :
    (c9FullState.powerups.all fun p => p.active) = true ∧
    (spawn_powerup c9FullState ⟨100, 100⟩ [85]).1 = c9FullState ∧
    (spawn_powerup initialState ⟨100, 100⟩ [85]).1 =
      { initialState with powerups := [] ++
          (⟨⟨100, 100⟩, ⟨0, 2⟩,
            spawnChoice (((([85] : List Nat).headD 0 : Nat) : Int) % 100),
            true⟩ : Powerup) :: initialState.powerups.tail } ∧
    spawnChoice 35 = PType.puExpand ∧
    spawnChoice 65 = PType.puExtraLife ∧
    spawnChoice 85 = PType.puMultiBall := by
  have h1 := c9_spawn_powerup c9FullState ⟨100, 100⟩ [85]
  have h2 := c9_spawn_powerup initialState ⟨100, 100⟩ [85]
  refine ⟨by with_unfolding_all decide,
    h1.1 (by with_unfolding_all decide), ?_, ?_, ?_, ?_⟩
  · exact h2.2.1 [] initialState.powerups.tail dummyPowerup
      (by with_unfolding_all decide) (by with_unfolding_all decide)
      (by with_unfolding_all decide)
  · exact (h2.2.2 35).1 (by norm_num)
  · exact (h2.2.2 65).2.1 (by norm_num) (by norm_num)
  · exact (h2.2.2 85).2.2 (by norm_num)

/-- Claim C10: after init_game the paddle's vertical position is 670 and
its height is 22, and no operation of the simulation core ever changes
either: every update_game frame preserves them, whatever the phase. -/
theorem c10_paddle_geometry :
    initialState.player.pos.y = 670 ∧ initialState.player.size.y = 22 ∧
    (∀ (s : GState) (i : Input),
      s.player.pos.y = 670 → s.player.size.y = 22 →
      (update_game s i).player.pos.y = 670 ∧
      (update_game s i).player.size.y = 22) := by
  refine ⟨by decide!, by decide!, ?_⟩
  intro s i h1 h2
  have htog : (if i.pkey then { s with pause := !s.pause } else s).player =
      s.player := by
    split
    · rfl
    · rfl
  cases hg : s.gameState with
  | title =>
      unfold update_game
      rw [hg]
      dsimp only
      split
      · constructor
        · show (init_game s).player.pos.y = 670
          unfold init_game
          dsimp only
          norm_num [screenHeight]
        · show (init_game s).player.size.y = 22
          rfl
      · exact ⟨h1, h2⟩
  | playing =>
      have hred : update_game s i =
          (if (if i.pkey then { s with pause := !s.pause } else s).pause then
            (if i.pkey then { s with pause := !s.pause } else s)
          else
            playingStep (if i.pkey then { s with pause := !s.pause } else s)
              i) := by
        unfold update_game
        rw [hg]
      rw [hred]
      by_cases hps : (if i.pkey then { s with pause := !s.pause } else
          s).pause
      · rw [if_pos hps, htog]
        exact ⟨h1, h2⟩
      · rw [if_neg hps]
        have hpg := playingStep_geom
          (if i.pkey then { s with pause := !s.pause } else s) i
        rw [hpg.1, hpg.2, htog]
        exact ⟨h1, h2⟩
  | gameOver =>
      unfold update_game
      rw [hg]
      dsimp only
      split
      · exact ⟨h1, h2⟩
      · exact ⟨h1, h2⟩
  | win =>
      unfold update_game
      rw [hg]
      dsimp only
      split
      · exact ⟨h1, h2⟩
      · exact ⟨h1, h2⟩

/-- Witness for C10's preservation part at a concrete state and input. -/
theorem c10_paddle_geometry_witness :
    initialState.player.pos.y = 670 ∧ initialState.player.size.y = 22 ∧
    (update_game initialState startI).player.pos.y = 670 ∧
    (update_game initialState startI).player.size.y = 22 := by
  have h := c10_paddle_geometry
  have h3 := h.2.2 initialState startI (by decide!) (by decide!)
  exact ⟨h.1, h.2.1, h3.1, h3.2⟩

end Arkanoid
